import Mathlib

/-!
Verification of the caching subsystem of the E-Learning backend
(services/cache_keys.py, services/memory_cache.py, services/course_service.py,
services/progress_service.py, services/analytics_service.py,
services/cache_service.py, services/cache_warming.py, services/cache_backup.py).

The Python services are shallowly embedded as pure Lean functions over an
explicit state record `St` holding the L1 in-process cache, the L2 (Redis)
cache, a clock, an oracle for the MongoDB source-of-record, and a trace of
observable effects.  Each `async` handler becomes a state-passing function;
an `await` boundary has no effect in the sequential model (a dedicated
interleaving model for the stampede-protection claims appears further down).
Exceptions raised by a handler are modelled with `Except`, paired with the
state at the raise point (module-level caches survive a raised exception).
-/

namespace ELearning

/-! ### Key namespace (services/cache_keys.py) -/

def course_key (course_id : String) : String := "course:" ++ course_id

def courses_list_key (filters_hash : String) : String := "courses_list:" ++ filters_hash

def progress_key (user_id course_id : String) : String :=
  "progress:" ++ user_id ++ ":" ++ course_id

def user_dashboard_key (user_id : String) : String := "user_dashboard:" ++ user_id

def analytics_course_key (course_id : String) : String := "analytics:course:" ++ course_id

def analytics_platform_overview_key : String := "analytics:platform:overview"

def analytics_student_patterns_key (user_id : String) : String :=
  "analytics:student:" ++ user_id ++ ":patterns"

/-! ### Documents held by the source-of-record

Course documents are modelled with exactly the structure the cache layer
observes: an `_id`, a title, and the `modules`/`lessons` nesting walked by
`_assert_lesson_belongs_to_course` (progress_service.py).  Other resource
documents (progress records, dashboards, analytics aggregates) are only moved
around opaquely, so they are lists of scalar fields. -/

structure Lesson where
  lesson_id : String
deriving DecidableEq

structure CModule where
  module_id : String
  lessons : List Lesson
deriving DecidableEq

structure Course where
  _id : String
  title : String
  modules : List CModule
deriving DecidableEq

structure ProgressDoc where
  user_id : String
  course_id : String
  progress_percent : Nat
deriving DecidableEq

/-- An opaque JSON-object document (dashboards, analytics aggregates). -/
structure ObjDoc where
  fields : List (String × Int)
deriving DecidableEq

/-- A value held by a cache tier.  `jsonStr c` is the payload produced by the
double encoding in `replace_course` (course_service.py line 188), where
`json.dumps(JSONEncoder().encode(doc))` stores the JSON *string* of `doc`
rather than its object form. -/
inductive Payload
  | course (c : Course)
  | listPage (total page page_size : Nat) (items : List Course)
  | progress (p : ProgressDoc)
  | obj (d : ObjDoc)
  | jsonStr (c : Course)
deriving DecidableEq

/-- The serialized byte form held by L2.  Serialization is modelled by the
observable behaviour of `json.dumps`/`json.loads`: a well-formed blob
deserializes back to the payload it was built from, and a corrupt blob makes
`json.loads` fail. -/
inductive Ser
  | ser (p : Payload)
  | corrupt
deriving DecidableEq

/-- `json.loads` on an L2 blob. -/
def loads : Ser → Option Payload
  | .ser p => some p
  | .corrupt => none

/-! ### L1: AsyncInMemoryCache (services/memory_cache.py)

`_store` maps a key to `(expires_at, value)` with `expires_at = 0` meaning
"no expiry", exactly as in `AsyncInMemoryCache.set`.  `_locks` is the lazy
per-key lock registry; lock objects are modelled by the numeric identity of
the allocated `asyncio.Lock`, so that "the same object is returned" is
expressible. -/

structure L1Entry where
  expires_at : Nat
  value : Payload
deriving DecidableEq

structure MemCache where
  store : String → Option L1Entry
  locks : List (String × Nat)
  next_lock_id : Nat

/-- `AsyncInMemoryCache.get`: an entry whose expiry has passed is popped
lazily and reported absent. -/
def MemCache.get (m : MemCache) (now : Nat) (key : String) :
    Option Payload × MemCache :=
  match m.store key with
  | none => (none, m)
  | some e =>
    if e.expires_at ≠ 0 ∧ now > e.expires_at then
      (none, { m with store := fun k => if k = key then none else m.store k })
    else
      (some e.value, m)

/-- `AsyncInMemoryCache.set`: `expires_at = now + ttl` when `ttl > 0`,
else `0` (no expiry). -/
def MemCache.set (m : MemCache) (now : Nat) (key : String) (value : Payload)
    (ttl : Nat) : MemCache :=
  { m with store := fun k =>
      if k = key then some ⟨if ttl > 0 then now + ttl else 0, value⟩
      else m.store k }

/-- `AsyncInMemoryCache.delete`. -/
def MemCache.delete (m : MemCache) (key : String) : MemCache :=
  { m with store := fun k => if k = key then none else m.store k }

/-- `k.startswith(p)`, expressed on the character lists. -/
def startsWith (p k : String) : Bool := p.data.isPrefixOf k.data

/-- `AsyncInMemoryCache.pattern_delete`: clears every key that starts with
the given prefix. -/
def MemCache.pattern_delete (m : MemCache) (p : String) : MemCache :=
  { m with store := fun k => if startsWith p k then none else m.store k }

/-- `AsyncInMemoryCache.get_lock`: returns the lock registered for `key`,
allocating a fresh `asyncio.Lock` on first use.  The returned `Nat` is the
identity of the lock object. -/
def MemCache.get_lock (m : MemCache) (key : String) : Nat × MemCache :=
  match m.locks.lookup key with
  | some i => (i, m)
  | none =>
    (m.next_lock_id,
     { m with locks := (key, m.next_lock_id) :: m.locks,
              next_lock_id := m.next_lock_id + 1 })

/-! ### L2: the Redis store

Modelled as an association list (newest binding first) so that `SCAN` can
enumerate keys.  `expires_at = none` means the key persists.  A key whose
expiry has passed reads as absent. -/

structure L2Entry where
  value : Ser
  expires_at : Option Nat
deriving DecidableEq

structure RedisCache where
  store : List (String × L2Entry)

def L2Entry.live (e : L2Entry) (now : Nat) : Bool :=
  match e.expires_at with
  | none => true
  | some t => now ≤ t

/-- `r.get key` (the read side; expired keys read as absent). -/
def RedisCache.read (r : RedisCache) (now : Nat) (key : String) : Option Ser :=
  match r.store.lookup key with
  | none => none
  | some e => if e.live now then some e.value else none

/-- `r.set key value ex=ttl`. -/
def RedisCache.write (r : RedisCache) (now : Nat) (key : String) (v : Ser)
    (ttl : Nat) : RedisCache :=
  ⟨(key, ⟨v, some (now + ttl)⟩) :: r.store.filter (fun kv => kv.1 != key)⟩

/-- `r.delete k1 k2 ...`. -/
def RedisCache.del (r : RedisCache) (keys : List String) : RedisCache :=
  ⟨r.store.filter (fun kv => !keys.contains kv.1)⟩

/-- The key set produced by the full `SCAN cursor MATCH p*` loop (the
while-loop in `_invalidate_course_lists` / `_delete_redis_pattern` walks the
cursor until it returns 0, i.e. enumerates every stored key matching the
pattern). -/
def RedisCache.scanKeys (r : RedisCache) (p : String) : List String :=
  (r.store.filter (fun kv => startsWith p kv.1)).map (fun kv => kv.1)

/-! ### The source-of-record oracle (repos/*.py)

MongoDB is an external collaborator; each repo call is modelled by an oracle
field giving the call's result, and the mutation itself is recorded in the
effect trace. -/

abbrev Patch := List (String × String)

structure DB where
  get_course_by_id : String → Option Course
  list_courses : Option String → Patch → Nat → Nat → String → Nat × List Course
  insert_course : Patch → Course
  update_module : String → String → Patch → Option Course
  repl_course : String → Patch → Option Course
  get_user_course_progress : String → String → Option ProgressDoc
  upsert_lesson_completion : String → String → String → ProgressDoc
  get_user_dashboard : String → ObjDoc
  platform_overview_agg : ObjDoc
  course_perf_agg : String → Option ObjDoc
  student_patterns_agg : String → Option ObjDoc
  active_user_ids : List String

/-! ### Observable effects and the combined state -/

inductive Action
  | dbFetch (op : String)
  | dbWrite (op : String)
  | l1Set (key : String)
  | l1Delete (key : String)
  | l1PatternDelete (p : String)
  | l2Set (key : String)
  | l2Delete (keys : List String)
  | l2Scan (p : String)
  | publish (channel : String)
  | statHit (ns : String)
  | statMiss (ns : String)
deriving DecidableEq

structure St where
  now : Nat
  mem : MemCache
  rds : RedisCache
  db : DB
  trace : List Action

inductive Err
  | jsonDecodeError
  | valueError (msg : String)
deriving DecidableEq

instance {ε α : Type} [DecidableEq ε] [DecidableEq α] :
    DecidableEq (Except ε α) := fun a b =>
  match a, b with
  | .ok x, .ok y =>
    if h : x = y then .isTrue (by rw [h]) else .isFalse (by simp [h])
  | .error x, .error y =>
    if h : x = y then .isTrue (by rw [h]) else .isFalse (by simp [h])
  | .ok _, .error _ => .isFalse (by simp)
  | .error _, .ok _ => .isFalse (by simp)

/-! ### Primitive operations threading the state -/

def emit (a : Action) (s : St) : St := { s with trace := s.trace ++ [a] }

/-- `_get_l1` / `memory_cache.get`. -/
def l1_get (key : String) (s : St) : Option Payload × St :=
  ((s.mem.get s.now key).1, { s with mem := (s.mem.get s.now key).2 })

/-- `_set_l1` / `memory_cache.set`. -/
def l1_set (key : String) (v : Payload) (ttl : Nat) (s : St) : St :=
  emit (.l1Set key) { s with mem := s.mem.set s.now key v ttl }

/-- `_del_l1` / `memory_cache.delete`. -/
def l1_delete (key : String) (s : St) : St :=
  emit (.l1Delete key) { s with mem := s.mem.delete key }

/-- `_del_l1_prefix` / `memory_cache.pattern_delete`. -/
def l1_pattern_delete (p : String) (s : St) : St :=
  emit (.l1PatternDelete p) { s with mem := s.mem.pattern_delete p }

/-- `memory_cache.get_lock` (the subsequent `async with lock` has no effect in
the sequential model; the interleaved model below gives it semantics). -/
def get_lock (key : String) (s : St) : Nat × St :=
  ((s.mem.get_lock key).1, { s with mem := (s.mem.get_lock key).2 })

/-- `r.get key`. -/
def r_get (key : String) (s : St) : Option Ser × St :=
  (s.rds.read s.now key, s)

/-- `r.set key v ex=ttl`. -/
def r_set (key : String) (v : Ser) (ttl : Nat) (s : St) : St :=
  emit (.l2Set key) { s with rds := s.rds.write s.now key v ttl }

/-- `r.delete k1 k2 ...`. -/
def r_delete (keys : List String) (s : St) : St :=
  emit (.l2Delete keys) { s with rds := s.rds.del keys }

/-- Fetch from the source-of-record (a read-only repo call run in the
threadpool). -/
def db_fetch (op : String) (f : DB → α) (s : St) : α × St :=
  (f s.db, emit (.dbFetch op) s)

/-- Mutating repo call; the oracle gives the document the call returns. -/
def db_write (op : String) (f : DB → α) (s : St) : α × St :=
  (f s.db, emit (.dbWrite op) s)

/-- `publish_analytics_update` (realtime_analytics.py): publishes one message
on channel `analytics:{course_id}`; its `try/except` swallows all errors. -/
def publish_analytics_update (course_id : String) (s : St) : St :=
  emit (.publish ("analytics:" ++ course_id)) s

/-- `cache_stats.hit`: `HINCRBY` on the fixed hash `cache_stats:hits`.  The
stats hash keys are disjoint from every resource key and no claim reads them,
so only the effect is traced. -/
def stat_hit (ns : String) (s : St) : St := emit (.statHit ns) s

/-- `cache_stats.miss`. -/
def stat_miss (ns : String) (s : St) : St := emit (.statMiss ns) s

/-! ### TTL constants (course_service.py, progress_service.py,
analytics_service.py) -/

def COURSE_TTL : Nat := 60 * 5
def COURSE_LIST_TTL : Nat := 60 * 2
def PROGRESS_TTL : Nat := 60 * 10
def DASHBOARD_TTL : Nat := 60 * 5
def COURSE_ANALYTICS_TTL : Nat := 60 * 10
def STUDENT_ANALYTICS_TTL : Nat := 60 * 20
def PLATFORM_ANALYTICS_TTL : Nat := 60 * 45
def WARM_SORTS : List String := ["recent", "popular", "top_rated"]
def WARM_PAGE_SIZE : Nat := 12

/-- `_filters_key` (course_service.py lines 25–31): the SHA-1 digest of the
sort-keyed JSON rendering of the filter parameters.  The digest is modelled by
a deterministic textual encoding of the same tuple; the claims depend only on
the key being a deterministic function of the parameters. -/
def _filters_key (q : Option String) (filters : Patch) (page page_size : Nat)
    (sort_by : String) : String :=
  (match q with | none => "null" | some x => "q" ++ x) ++ "|" ++
  String.intercalate "," (filters.map (fun kv => kv.1 ++ ":" ++ kv.2)) ++ "|" ++
  toString page ++ "|" ++ toString page_size ++ "|" ++ sort_by

/-! ### Cache-aside read/write handlers -/

/-- `get_course` (course_service.py lines 49–83).  A raised exception
(`json.loads` on an undeserializable L2 payload, line 71) is reported through
`Except` together with the state at the raise point.  The truthiness tests
`if cached:` hold for every cached payload (a nonempty JSON object or string),
so they are modelled as presence tests. -/
def get_course (course_id : String) (s : St) :
    Except Err (Option Payload) × St :=
  let key := course_key course_id
  match l1_get key s with
  | (some v, s) => (.ok (some v), stat_hit "courses" s)
  | (none, s) =>
    let (_lock, s) := get_lock key s
    match l1_get key s with
    | (some v, s) => (.ok (some v), stat_hit "courses" s)
    | (none, s) =>
      match r_get key s with
      | (some blob, s) =>
        match loads blob with
        | some payload =>
          let s := l1_set key payload COURSE_TTL s
          (.ok (some payload), stat_hit "courses" s)
        | none => (.error .jsonDecodeError, s)
      | (none, s) =>
        let s := stat_miss "courses" s
        let (doc, s) := db_fetch "get_course_by_id"
          (fun db => db.get_course_by_id course_id) s
        match doc with
        | some d =>
          let s := r_set key (.ser (.course d)) COURSE_TTL s
          let s := l1_set key (.course d) COURSE_TTL s
          (.ok (some (.course d)), s)
        | none => (.ok none, s)

/-- `list_courses` (course_service.py lines 85–122): the database payload
(also an empty page) is always cached in both tiers. -/
def list_courses (q : Option String) (filters : Patch) (page page_size : Nat)
    (sort_by : String) (s : St) : Except Err Payload × St :=
  let key := courses_list_key (_filters_key q filters page page_size sort_by)
  match l1_get key s with
  | (some v, s) => (.ok v, stat_hit "courses_list" s)
  | (none, s) =>
    let (_lock, s) := get_lock key s
    match l1_get key s with
    | (some v, s) => (.ok v, stat_hit "courses_list" s)
    | (none, s) =>
      match r_get key s with
      | (some blob, s) =>
        match loads blob with
        | some payload =>
          let s := l1_set key payload COURSE_LIST_TTL s
          (.ok payload, stat_hit "courses_list" s)
        | none => (.error .jsonDecodeError, s)
      | (none, s) =>
        let s := stat_miss "courses_list" s
        let (res, s) := db_fetch "list_courses"
          (fun db => db.list_courses q filters page page_size sort_by) s
        let payload : Payload := .listPage res.1 page page_size res.2
        let s := r_set key (.ser payload) COURSE_LIST_TTL s
        let s := l1_set key payload COURSE_LIST_TTL s
        (.ok payload, s)

/-- `_invalidate_course_lists` (course_service.py lines 192–203): the SCAN
loop deletes every `courses_list:*` key from L2 (the DEL is skipped when the
scan finds nothing), then the prefix is cleared from L1. -/
def _invalidate_course_lists (s : St) : St :=
  let s := emit (.l2Scan "courses_list:*") s
  let ks := s.rds.scanKeys "courses_list:"
  let s := if ks.isEmpty then s else r_delete ks s
  l1_pattern_delete "courses_list:" s

/-- `create_course` (course_service.py lines 124–155). -/
def create_course (data : Patch) (s : St) : Except Err Course × St :=
  let (doc, s) := db_write "insert_course" (fun db => db.insert_course data) s
  let s := _invalidate_course_lists s
  let key := course_key doc._id
  let s := r_set key (.ser (.course doc)) COURSE_TTL s
  let s := l1_set key (.course doc) COURSE_TTL s
  let platform_key := analytics_platform_overview_key
  let s := l1_delete platform_key s
  let s := r_delete [platform_key] s
  let s := publish_analytics_update doc._id s
  let s := publish_analytics_update "platform" s
  (.ok doc, s)

/-- `update_course_module` (course_service.py lines 157–176). -/
def update_course_module (course_id module_id : String) (patch : Patch)
    (s : St) : Except Err (Option Course) × St :=
  let (doc, s) := db_write "update_module"
    (fun db => db.update_module course_id module_id patch) s
  match doc with
  | some d =>
    let key := course_key course_id
    let s := l1_delete key s
    let s := r_delete [key] s
    let s := _invalidate_course_lists s
    let s := r_set key (.ser (.course d)) COURSE_TTL s
    let s := l1_set key (.course d) COURSE_TTL s
    let s := publish_analytics_update course_id s
    (.ok (some d), s)
  | none => (.ok none, s)

/-- `replace_course` (course_service.py lines 178–190).  Line 188 serializes
`JSONEncoder().encode(doc)` — already a JSON string — a second time, so the L2
blob deserializes to the JSON *string* of the course, not to the course
object; L1 receives the object itself. -/
def replace_course (course_id : String) (patch : Patch) (s : St) :
    Except Err (Option Course) × St :=
  let (doc, s) := db_write "replace_course"
    (fun db => db.repl_course course_id patch) s
  match doc with
  | some d =>
    let key := course_key course_id
    let s := l1_delete key s
    let s := r_delete [key] s
    let s := _invalidate_course_lists s
    let s := r_set key (.ser (.jsonStr d)) COURSE_TTL s
    let s := l1_set key (.course d) COURSE_TTL s
    (.ok (some d), s)
  | none => (.ok none, s)

/-- `bson.ObjectId` accepts exactly a 24-character hexadecimal string (the
12-byte form is not produced by this API). -/
def isValidObjectId (sid : String) : Bool :=
  sid.length == 24 && sid.data.all (fun c =>
    c.isDigit || ('a' ≤ c && c ≤ 'f') || ('A' ≤ c && c ≤ 'F'))

/-- `invalidate_course_cache` (cache_service.py lines 16–47).  The
`asyncio.gather` of the deletions is modelled in argument order; the
`_delete_redis_pattern` helper walks the SCAN cursor and batch-deletes every
matching key. -/
def invalidate_course_cache (course_id : String) (s : St) :
    Except Err Unit × St :=
  if ¬ isValidObjectId course_id then
    (.error (.valueError "Invalid course_id"), s)
  else
    let key := course_key course_id
    let analytics_key := analytics_course_key course_id
    let s := l1_delete key s
    let s := l1_delete analytics_key s
    let s := r_delete [key, analytics_key] s
    let s := l1_pattern_delete "courses_list:" s
    let s := emit (.l2Scan "courses_list:*") s
    let ks := s.rds.scanKeys "courses_list:"
    let s := if ks.isEmpty then s else r_delete ks s
    (.ok (), s)

/-! ### Progress handlers (services/progress_service.py) -/

/-- `_assert_lesson_belongs_to_course` (progress_service.py lines 31–39). -/
def _assert_lesson_belongs_to_course (course_id lesson_id : String) (s : St) :
    Except Err Unit × St :=
  let (course, s) := db_fetch "get_course_by_id"
    (fun db => db.get_course_by_id course_id) s
  match course with
  | none => (.error (.valueError "Course not found"), s)
  | some c =>
    if c.modules.any (fun m => m.lessons.any (fun l => l.lesson_id == lesson_id)) then
      (.ok (), s)
    else
      (.error (.valueError "Lesson not found in the specified course"), s)

/-- `complete_lesson` (progress_service.py lines 82–126).  The
`asyncio.gather` of the ten deletions is modelled in argument order; the L1
re-seed stores `json.loads(serialized)`, which round-trips to the upserted
document. -/
def complete_lesson (user_id course_id lesson_id : String) (s : St) :
    Except Err ProgressDoc × St :=
  match _assert_lesson_belongs_to_course course_id lesson_id s with
  | (.error e, s) => (.error e, s)
  | (.ok _, s) =>
    let (doc, s) := db_write "upsert_lesson_completion"
      (fun db => db.upsert_lesson_completion user_id course_id lesson_id) s
    let ck := progress_key user_id course_id
    let dk := user_dashboard_key user_id
    let ak := analytics_course_key course_id
    let sk := analytics_student_patterns_key user_id
    let pk := analytics_platform_overview_key
    let s := l1_delete ck s
    let s := r_delete [ck] s
    let s := l1_delete dk s
    let s := r_delete [dk] s
    let s := l1_delete ak s
    let s := r_delete [ak] s
    let s := l1_delete sk s
    let s := r_delete [sk] s
    let s := l1_delete pk s
    let s := r_delete [pk] s
    let s := r_set ck (.ser (.progress doc)) PROGRESS_TTL s
    let s := l1_set ck (.progress doc) PROGRESS_TTL s
    let s := publish_analytics_update course_id s
    let s := publish_analytics_update "platform" s
    (.ok doc, s)

/-- `get_course_progress` (progress_service.py lines 128–156). -/
def get_course_progress (user_id course_id : String) (s : St) :
    Except Err (Option Payload) × St :=
  let key := progress_key user_id course_id
  match l1_get key s with
  | (some v, s) => (.ok (some v), stat_hit "progress" s)
  | (none, s) =>
    let (_lock, s) := get_lock key s
    match l1_get key s with
    | (some v, s) => (.ok (some v), stat_hit "progress" s)
    | (none, s) =>
      match r_get key s with
      | (some blob, s) =>
        match loads blob with
        | some payload =>
          let s := l1_set key payload PROGRESS_TTL s
          (.ok (some payload), stat_hit "progress" s)
        | none => (.error .jsonDecodeError, s)
      | (none, s) =>
        let s := stat_miss "progress" s
        let (doc, s) := db_fetch "get_user_course_progress"
          (fun db => db.get_user_course_progress user_id course_id) s
        match doc with
        | some d =>
          let s := r_set key (.ser (.progress d)) PROGRESS_TTL s
          let s := l1_set key (.progress d) PROGRESS_TTL s
          (.ok (some (.progress d)), s)
        | none => (.ok none, s)

/-- `get_dashboard` (progress_service.py lines 158–189): the dashboard
document is always computed and cached on a double miss. -/
def get_dashboard (user_id : String) (s : St) : Except Err Payload × St :=
  let key := user_dashboard_key user_id
  match l1_get key s with
  | (some v, s) => (.ok v, stat_hit "dashboard" s)
  | (none, s) =>
    let (_lock, s) := get_lock key s
    match l1_get key s with
    | (some v, s) => (.ok v, stat_hit "dashboard" s)
    | (none, s) =>
      match r_get key s with
      | (some blob, s) =>
        match loads blob with
        | some payload =>
          let s := l1_set key payload DASHBOARD_TTL s
          (.ok payload, stat_hit "dashboard" s)
        | none => (.error .jsonDecodeError, s)
      | (none, s) =>
        let s := stat_miss "dashboard" s
        let (doc, s) := db_fetch "get_user_dashboard"
          (fun db => db.get_user_dashboard user_id) s
        let s := r_set key (.ser (.obj doc)) DASHBOARD_TTL s
        let s := l1_set key (.obj doc) DASHBOARD_TTL s
        (.ok (.obj doc), s)

/-! ### Analytics handlers (services/analytics_service.py) -/

/-- `_get_cache` (analytics_service.py lines 20–40): L1, then L2 via a
one-command pipeline; a corrupt L2 payload is deleted and treated as a miss;
an L2 hit populates L1 with half the TTL. -/
def _get_cache (key : String) (ttl : Nat) (s : St) : Option Payload × St :=
  match l1_get key s with
  | (some v, s) => (some v, s)
  | (none, s) =>
    match r_get key s with
    | (some blob, s) =>
      match loads blob with
      | some payload => (some payload, l1_set key payload (ttl / 2) s)
      | none => (none, r_delete [key] s)
    | (none, s) => (none, s)

/-- `_set_cache` (analytics_service.py lines 42–48), gather modelled in
argument order. -/
def _set_cache (key : String) (v : Payload) (ttl : Nat) (s : St) : St :=
  let s := r_set key (.ser v) ttl s
  l1_set key v (ttl / 2) s

/-- `platform_overview` (analytics_service.py lines 135–161). -/
def platform_overview (s : St) : Except Err Payload × St :=
  let key := analytics_platform_overview_key
  match _get_cache key PLATFORM_ANALYTICS_TTL s with
  | (some v, s) => (.ok v, s)
  | (none, s) =>
    let (agg, s) := db_fetch "platform_overview_agg"
      (fun db => db.platform_overview_agg) s
    let payload := Payload.obj agg
    let s := _set_cache key payload PLATFORM_ANALYTICS_TTL s
    (.ok payload, s)

/-- `course_performance` (analytics_service.py lines 53–90): an empty
aggregation result returns a zeroed payload without caching. -/
def course_performance (course_id : String) (s : St) : Except Err Payload × St :=
  let key := analytics_course_key course_id
  match _get_cache key COURSE_ANALYTICS_TTL s with
  | (some v, s) => (.ok v, s)
  | (none, s) =>
    let (res, s) := db_fetch "progress_aggregate"
      (fun db => db.course_perf_agg course_id) s
    match res with
    | none => (.ok (.obj ⟨[]⟩), s)
    | some agg =>
      let payload := Payload.obj agg
      let s := _set_cache key payload COURSE_ANALYTICS_TTL s
      (.ok payload, s)

/-- `student_patterns` (analytics_service.py lines 95–131). -/
def student_patterns (user_id : String) (s : St) : Except Err Payload × St :=
  let key := analytics_student_patterns_key user_id
  match _get_cache key STUDENT_ANALYTICS_TTL s with
  | (some v, s) => (.ok v, s)
  | (none, s) =>
    let (res, s) := db_fetch "progress_aggregate"
      (fun db => db.student_patterns_agg user_id) s
    match res with
    | none => (.ok (.obj ⟨[]⟩), s)
    | some agg =>
      let payload := Payload.obj agg
      let s := _set_cache key payload STUDENT_ANALYTICS_TTL s
      (.ok payload, s)

/-! ### Cache warming (course_service.py, services/cache_warming.py) -/

/-- The course ids collected from `page_payload.get("items", [])`, skipping
falsy ids (`if cid:`). -/
def itemIds : Payload → List String
  | .listPage _ _ _ items => (items.map (fun c => c._id)).filter (fun i => i ≠ "")
  | _ => []

/-- The per-sort loop of `warm_courses_cache`: an exception from one
`list_courses` call propagates and aborts the remaining iterations. -/
def warm_sorts : List String → St → Except Err (List String) × St
  | [], s => (.ok [], s)
  | sort_by :: rest, s =>
    match list_courses none [] 1 WARM_PAGE_SIZE sort_by s with
    | (.error e, s) => (.error e, s)
    | (.ok payload, s) =>
      match warm_sorts rest s with
      | (.error e, s) => (.error e, s)
      | (.ok more, s) => (.ok (itemIds payload ++ more), s)

/-- The per-course loop of `warm_courses_cache`: an exception from one
`get_course` call aborts the remaining iterations. -/
def warm_ids : List String → St → Except Err Unit × St
  | [], s => (.ok (), s)
  | cid :: rest, s =>
    match get_course cid s with
    | (.error e, s) => (.error e, s)
    | (.ok _, s) => warm_ids rest s

/-- `warm_courses_cache` (course_service.py lines 205–224).  `warmed_ids` is a
Python set, modelled as the deduplicated id list (no claim depends on the
iteration order). -/
def warm_courses_cache (s : St) : Except Err Unit × St :=
  match warm_sorts WARM_SORTS s with
  | (.error e, s) => (.error e, s)
  | (.ok ids, s) => warm_ids ids.eraseDups s

/-- `asyncio.gather(..., return_exceptions=True)`: every task runs to
completion and an exception becomes a returned value instead of propagating.
The cooperative tasks are modelled as running sequentially. -/
def protected_run (f : St → Except Err α × St) (s : St) : St := (f s).2

/-- `_warm_top_courses` (cache_warming.py lines 27–41): per-course analytics
warms are gathered with `return_exceptions=True`, so one failure does not
abort the others. -/
def _warm_top_courses (limit : Nat) (s : St) : Except Err Unit × St :=
  let (res, s) := db_fetch "list_courses"
    (fun db => db.list_courses none [] 1 limit "popular") s
  let ids := (res.2.map (fun c => c._id)).filter (fun i => i ≠ "")
  let s := ids.foldl (fun s cid => protected_run (course_performance cid) s) s
  (.ok (), s)

/-- `warm_critical_caches` (cache_warming.py lines 9–16): the three branches
are gathered with `return_exceptions=True`. -/
def warm_critical_caches (s : St) : St :=
  let s := protected_run platform_overview s
  let s := protected_run warm_courses_cache s
  protected_run (_warm_top_courses 10) s

/-! ### Interleaving model of `get_course` for stampede protection

`get_course` is a coroutine: control can pass to another request handler only
at an `await`.  The model below cuts the handler at exactly its await
boundaries for one fixed key and runs two copies of it against the shared L1
entry, the shared L2 entry, the per-key lock and the source-of-record answer
`db` for that key.  `fetches` counts executions of the expensive
source-of-record fetch. -/

namespace GC

/-- The await point at which one `get_course` coroutine is suspended:
`start` before the first L1 check (line 54), `acquire` awaiting the per-key
lock (line 61), `recheck` the double-check (line 63), `l2check` before
`r.get` (line 69), `l1fill v` before `_set_l1` on an L2 hit (line 72),
`fetch` before the threadpool fetch (line 78), `setl2 v` before `r.set`
(line 81), `setl1 v` before `_set_l1` (line 82), `ret r` before the
`async with` block releases the lock, `done r` after return. -/
inductive PC (V : Type)
  | start
  | acquire
  | recheck
  | l2check
  | l1fill (v : V)
  | fetch
  | setl2 (v : V)
  | setl1 (v : V)
  | ret (r : Option V)
  | done (r : Option V)
deriving DecidableEq

/-- State shared by all handlers of the key: the L1 copy, the L2 copy,
whether the per-key lock is held, and the number of source fetches. -/
structure Sh (V : Type) where
  l1 : Option V
  l2 : Option V
  locked : Bool
  fetches : Nat
deriving DecidableEq

/-- One step of a single handler.  A handler at `acquire` while the lock is
held stays blocked.  The first L1 hit returns without touching the lock. -/
def step (db : Option V) : Sh V × PC V → Sh V × PC V
  | (σ, .start) =>
    match σ.l1 with
    | some v => (σ, .done (some v))
    | none => (σ, .acquire)
  | (σ, .acquire) =>
    if σ.locked then (σ, .acquire) else ({ σ with locked := true }, .recheck)
  | (σ, .recheck) =>
    match σ.l1 with
    | some v => (σ, .ret (some v))
    | none => (σ, .l2check)
  | (σ, .l2check) =>
    match σ.l2 with
    | some v => (σ, .l1fill v)
    | none => (σ, .fetch)
  | (σ, .l1fill v) => ({ σ with l1 := some v }, .ret (some v))
  | (σ, .fetch) =>
    match db with
    | some v => ({ σ with fetches := σ.fetches + 1 }, .setl2 v)
    | none => ({ σ with fetches := σ.fetches + 1 }, .ret none)
  | (σ, .setl2 v) => ({ σ with l2 := some v }, .setl1 v)
  | (σ, .setl1 v) => ({ σ with l1 := some v }, .ret (some v))
  | (σ, .ret r) => ({ σ with locked := false }, .done r)
  | (σ, .done r) => (σ, .done r)

/-- Two concurrent handlers for the same key. -/
structure Sys (V : Type) where
  sh : Sh V
  a : PC V
  b : PC V
deriving DecidableEq

/-- The cooperative scheduler picks which handler runs next. -/
def stepSys (db : Option V) (s : Sys V) (w : Bool) : Sys V :=
  if w then
    let (σ, p) := step db (s.sh, s.a)
    { s with sh := σ, a := p }
  else
    let (σ, p) := step db (s.sh, s.b)
    { s with sh := σ, b := p }

/-- Run a finite schedule. -/
def run (db : Option V) (sched : List Bool) (s : Sys V) : Sys V :=
  sched.foldl (stepSys db) s

/-- Both handlers start cold: empty caches, free lock, no fetches yet. -/
def init (V : Type) : Sys V := ⟨⟨none, none, false, 0⟩, .start, .start⟩

def inCS : PC V → Bool
  | .start | .acquire | .done _ => false
  | _ => true

def midpop : PC V → Bool
  | .setl2 _ | .setl1 _ => true
  | _ => false

/-- Every value a handler carries, and every result it returns, is the one
source-of-record value `v`. -/
def PCok (v : V) : PC V → Prop
  | .l1fill w => w = v
  | .setl2 w => w = v
  | .setl1 w => w = v
  | .ret r => r = some v
  | .done r => r = some v
  | _ => True

end GC

/-! ### Backup/restore model (services/cache_backup.py)

The backup service sees L2 as a store of typed Redis values.  The service is
always constructed with the application's Redis client, which
`deps.create_redis_client` builds with `decode_responses=True`, so every reply
it reads (keys, values, and the `TYPE` reply) is a decoded `str`, not
`bytes`. -/

namespace Backup

/-- A typed Redis value of one of the three kinds `create_backup`
classifies. -/
inductive RVal
  | str (s : String)
  | hash (fields : List (String × String))
  | rset (members : List String)
deriving DecidableEq

/-- The L2 store: key, typed value, absolute expiry (`none` = persists). -/
abbrev BDb := List (String × RVal × Option Nat)

def lookup (db : BDb) (k : String) : Option (RVal × Option Nat) :=
  List.lookup k db

/-- `TTL key` on a live key: `-1` when the key has no expiry, otherwise the
remaining time. -/
def ttlCmd (now : Nat) (e : Option Nat) : Int :=
  match e with
  | none => -1
  | some t => (t : Int) - (now : Int)

/-- A Python runtime value as far as the backup code compares it: a `str` or
a `bytes`. -/
inductive PyV
  | pstr (s : String)
  | pbytes (s : String)
deriving DecidableEq

/-- Python `==` on such values: a `str` never compares equal to a `bytes`. -/
def pyEq : PyV → PyV → Bool
  | .pstr a, .pstr b => a == b
  | .pbytes a, .pbytes b => a == b
  | _, _ => false

def typeName : RVal → String
  | .str _ => "string"
  | .hash _ => "hash"
  | .rset _ => "set"

/-- `await self.redis.type(key)` on the application's
`decode_responses=True` client (deps.py line 14): a decoded `str`. -/
def redisType (v : RVal) : PyV := .pstr (typeName v)

structure SnapEntry where
  typ : String
  value : RVal
  ttl : Int
deriving DecidableEq

structure Snapshot where
  total_keys : Nat
  data : List (String × SnapEntry)
deriving DecidableEq

/-- The per-key body of the backup loop in `create_backup` (cache_backup.py
lines 35–56): a key is captured only when its `TYPE` reply passes one of the
three `key_type == b"string" / b"hash" / b"set"` comparisons. -/
def backupEntry (now : Nat) (kv : String × RVal × Option Nat) :
    Option (String × SnapEntry) :=
  let key_type := redisType kv.2.1
  if pyEq key_type (.pbytes "string") then
    some (kv.1, ⟨"string", kv.2.1, ttlCmd now kv.2.2⟩)
  else if pyEq key_type (.pbytes "hash") then
    some (kv.1, ⟨"hash", kv.2.1, ttlCmd now kv.2.2⟩)
  else if pyEq key_type (.pbytes "set") then
    some (kv.1, ⟨"set", kv.2.1, ttlCmd now kv.2.2⟩)
  else none

/-- `CacheBackupService.create_backup` (cache_backup.py lines 19–65):
enumerate every key and capture those passing the type test. -/
def create_backup (db : BDb) (now : Nat) : Snapshot :=
  ⟨db.length, db.filterMap (backupEntry now)⟩

/-- A stored snapshot blob: either a loadable snapshot or a blob on which
`gzip.open`/`json.load` raises. -/
inductive Blob
  | good (snap : Snapshot)
  | unreadable
deriving DecidableEq

def erase (db : BDb) (k : String) : BDb := db.filter (fun p => p.1 != k)

/-- The write command queued for one snapshot entry, applied with Redis
MULTI/EXEC runtime semantics: `SET` overwrites any existing value and clears
the expiry; `HSET`/`SADD` merge into an existing value of the same type,
create the key when absent, and fail with WRONGTYPE (leaving the key
untouched) when the key holds another type. -/
def applyWrite (db : BDb) (k : String) (e : SnapEntry) : BDb × Bool :=
  if e.typ == "string" then
    match e.value with
    | .str s0 => ((k, .str s0, none) :: erase db k, false)
    | _ => (db, true)
  else if e.typ == "hash" then
    match e.value, lookup db k with
    | .hash f, some (.hash g, ex) =>
      ((k, .hash (f ++ g.filter (fun p => (f.lookup p.1).isNone)), ex) :: erase db k, false)
    | .hash f, none => ((k, .hash f, none) :: erase db k, false)
    | .hash _, some _ => (db, true)
    | _, _ => (db, true)
  else if e.typ == "set" then
    match e.value, lookup db k with
    | .rset m, some (.rset g, ex) =>
      ((k, .rset (g ++ m.filter (fun x => ¬ g.contains x)), ex) :: erase db k, false)
    | .rset m, none => ((k, .rset m, none) :: erase db k, false)
    | .rset _, some _ => (db, true)
    | _, _ => (db, true)
  else (db, false)

/-- `EXPIRE key ttl`: sets the expiry when the key exists, is a no-op
otherwise. -/
def applyExpire (db : BDb) (now : Nat) (k : String) (ttl : Int) : BDb :=
  match lookup db k with
  | none => db
  | some (v, _) => (k, v, some (now + ttl.toNat)) :: erase db k

/-- The two commands `restore_backup` queues for one snapshot key: the typed
write, then `EXPIRE` whenever the recorded ttl is positive. -/
def replayKey (now : Nat) (db : BDb) (kv : String × SnapEntry) : BDb × Bool :=
  let (db, err) := applyWrite db kv.1 kv.2
  let db := if kv.2.ttl > 0 then applyExpire db now kv.1 kv.2.ttl else db
  (db, err)

/-- `CacheBackupService.restore_backup` (cache_backup.py lines 67–97).  A
missing blob returns `False` before anything is touched; with
`clear_existing` the store is flushed before the blob is even loaded, so an
unreadable blob raises with the store already flushed.  The per-key writes go
through one pipeline: MULTI/EXEC executes every queued command, and
`execute()` raises the first command error only after all of them ran. -/
def restore_backup (blobs : String → Option Blob) (backup_name : String)
    (clear_existing : Bool) (db : BDb) (now : Nat) : Except Unit Bool × BDb :=
  match blobs backup_name with
  | none => (.ok false, db)
  | some blob =>
    let db := if clear_existing then [] else db
    match blob with
    | .unreadable => (.error (), db)
    | .good snap =>
      let res := snap.data.foldl
        (fun acc kv =>
          let (db, err) := replayKey now acc.1 kv
          (db, acc.2 || err))
        (db, false)
      if res.2 then (.error (), res.1) else (.ok true, res.1)

end Backup

/-! ### Concrete fixtures used by witnesses and counterexamples -/

def lesson1 : Lesson := ⟨"les1"⟩

def mod1 : CModule := ⟨"mod1", [lesson1]⟩

def course1 : Course := ⟨"c1", "Intro", [mod1]⟩

def course2 : Course := ⟨"c2", "Other", []⟩

def prog1 : ProgressDoc := ⟨"u1", "c1", 50⟩

def dash1 : ObjDoc := ⟨[("completed", 1)]⟩

def db1 : DB where
  get_course_by_id := fun cid => if cid = "c1" then some course1 else none
  list_courses := fun _ _ _ _ sort_by =>
    if sort_by = "recent" then (1, [course1]) else (1, [course2])
  insert_course := fun _ => course1
  update_module := fun cid _ _ => if cid = "c1" then some course1 else none
  repl_course := fun _ _ => none
  get_user_course_progress := fun _ _ => none
  upsert_lesson_completion := fun _ _ _ => prog1
  get_user_dashboard := fun _ => dash1
  platform_overview_agg := ⟨[("total_courses", 2)]⟩
  course_perf_agg := fun _ => some ⟨[("students", 1)]⟩
  student_patterns_agg := fun _ => none
  active_user_ids := ["u1"]

def emptyMem : MemCache := ⟨fun _ => none, [], 0⟩

/-- A cold state: empty caches at time 0 over the fixture database. -/
def st0 : St := ⟨0, emptyMem, ⟨[]⟩, db1, []⟩

/-! ### Trace classification (for the ordering claims) -/

/-- The source-of-record mutation of a write handler. -/
def Action.isMutation : Action → Bool
  | .dbWrite _ => true
  | _ => false

/-- A cache-invalidation effect: a single-key or prefix delete on either
tier. -/
def Action.isInvalidation : Action → Bool
  | .l1Delete _ | .l1PatternDelete _ | .l2Delete _ => true
  | _ => false

def Action.isPublish : Action → Bool
  | .publish _ => true
  | _ => false

/-- A write-through re-seed of a cache tier (in a write handler every cache
set is the re-seed of the freshly written value). -/
def Action.isReseed : Action → Bool
  | .l1Set _ | .l2Set _ => true
  | _ => false

/-- `allBefore p q t` holds when every `p`-action in `t` occurs strictly
before every `q`-action: after any `q`-action no `p`-action follows. -/
def allBefore (p q : Action → Bool) : List Action → Bool
  | [] => true
  | a :: rest =>
    if q a then rest.all (fun b => ¬ p b) && allBefore p q rest
    else allBefore p q rest

/-! ### The invariant for the interleaved `get_course` model -/

namespace GC

/-- The inductive invariant of the two-handler system when the
source-of-record holds `v` for the key: the lock is held exactly when a
handler is inside the critical section, at most one handler is inside it,
every cached or carried value is `v`, and the fetch counter never passes 1. -/
structure Inv (v : V) (s : Sys V) : Prop where
  lock_iff : s.sh.locked = (inCS s.a || inCS s.b)
  mutex : ¬ (inCS s.a = true ∧ inCS s.b = true)
  l1v : ∀ w, s.sh.l1 = some w → w = v
  l2v : ∀ w, s.sh.l2 = some w → w = v
  oka : PCok v s.a
  okb : PCok v s.b
  fila : ∀ w, s.a ≠ .l1fill w
  filb : ∀ w, s.b ≠ .l1fill w
  fet : s.sh.fetches ≤ 1
  zero : s.sh.fetches = 0 → s.sh.l1 = none ∧ s.sh.l2 = none
  mid : s.sh.fetches = 1 →
    midpop s.a = true ∨ midpop s.b = true ∨
      (s.sh.l1 = some v ∧ s.sh.l2 = some v)
  cs0a : s.a = .l2check ∨ s.a = .fetch → s.sh.fetches = 0
  cs0b : s.b = .l2check ∨ s.b = .fetch → s.sh.fetches = 0
  mp1a : midpop s.a = true → s.sh.fetches = 1
  mp1b : midpop s.b = true → s.sh.fetches = 1
  setl2a : ∀ w, s.a = .setl1 w → s.sh.l2 = some v
  setl2b : ∀ w, s.b = .setl1 w → s.sh.l2 = some v

/-- Swapping the two handlers. -/
def Sys.swap (s : Sys V) : Sys V := ⟨s.sh, s.b, s.a⟩

end GC

/-! ### Additional fixtures for the counterexamples -/

/-- A state whose L2 copy of course `c1` is undeserializable (for C9). -/
def stCorrupt : St :=
  ⟨0, emptyMem, ⟨[("course:c1", ⟨.corrupt, some 500⟩)]⟩, db1, []⟩

/-- A state whose L2 copy of course `c1` is live for one more second while
`COURSE_TTL` is 300 (for C5). -/
def stShortL2 : St :=
  ⟨100, emptyMem, ⟨[("course:c1", ⟨.ser (.course course1), some 101⟩)]⟩, db1, []⟩

/-- A state whose L2 holds live serialized copies of a course, a progress
record and an analytics aggregate (for the C5 witness). -/
def stL2hit : St :=
  ⟨0, emptyMem,
   ⟨[("course:c1", ⟨.ser (.course course1), some 400⟩),
     ("progress:u1:c1", ⟨.ser (.progress prog1), some 700⟩),
     ("analytics:platform:overview", ⟨.ser (.obj dash1), some 100⟩)]⟩,
   db1, []⟩

/-- A state whose L2 copies of both the course key and the analytics
platform-overview key are corrupt (for the C9 witness). -/
def stCorrupt2 : St :=
  ⟨0, emptyMem,
   ⟨[("course:c1", ⟨.corrupt, some 500⟩),
     ("analytics:platform:overview", ⟨.corrupt, some 500⟩)]⟩, db1, []⟩

/-- A state whose L2 copy of the `recent` warm-list key is corrupt, so the
first sort-order warm of `warm_courses_cache` raises (for C10). -/
def stWarmFail : St :=
  ⟨0, emptyMem,
   ⟨[(courses_list_key (_filters_key none [] 1 WARM_PAGE_SIZE "recent"),
      ⟨.corrupt, some 500⟩)]⟩, db1, []⟩

/-- The backup-model L2 of the round-trip scenario in the spec: key `A`
holds string `"1"` with 100 seconds of TTL left at time 0. -/
def bdb1 : Backup.BDb := [("A", .str "1", some 100)]

/-- A blob store holding one unreadable snapshot. -/
def blobsBad : String → Option Backup.Blob :=
  fun n => if n = "snap" then some .unreadable else none

/-- A snapshot whose middle key collides in type with an existing key (for
the C8 replay-isolation scenario). -/
def snapMix : Backup.Snapshot :=
  ⟨3, [("a", ⟨"string", .str "1", 50⟩),
       ("h1", ⟨"hash", .hash [("x", "1")], -1⟩),
       ("b", ⟨"string", .str "2", -1⟩)]⟩

def blobsMix : String → Option Backup.Blob :=
  fun n => if n = "mix" then some (.good snapMix) else none

/-- An existing L2 holding `h1` as a *string*, so the hash replay of `h1`
fails with WRONGTYPE (for C8). -/
def bdbMix : Backup.BDb := [("h1", .str "old", none)]

/-! ### Helper lemmas -/

@[simp] lemma MemCache.get_lock_store (m : MemCache) (k : String) :
    ((m.get_lock k).2).store = m.store := by
  unfold MemCache.get_lock
  cases List.lookup k m.locks <;> rfl

@[simp] lemma emit_now (a : Action) (s : St) : (emit a s).now = s.now := rfl
@[simp] lemma emit_mem (a : Action) (s : St) : (emit a s).mem = s.mem := rfl
@[simp] lemma emit_rds (a : Action) (s : St) : (emit a s).rds = s.rds := rfl
@[simp] lemma emit_db (a : Action) (s : St) : (emit a s).db = s.db := rfl
@[simp] lemma emit_trace (a : Action) (s : St) :
    (emit a s).trace = s.trace ++ [a] := rfl

@[simp] lemma l1_set_now (k : String) (v : Payload) (t : Nat) (s : St) :
    (l1_set k v t s).now = s.now := rfl
@[simp] lemma l1_set_rds (k : String) (v : Payload) (t : Nat) (s : St) :
    (l1_set k v t s).rds = s.rds := rfl
@[simp] lemma l1_set_db (k : String) (v : Payload) (t : Nat) (s : St) :
    (l1_set k v t s).db = s.db := rfl
@[simp] lemma l1_set_trace (k : String) (v : Payload) (t : Nat) (s : St) :
    (l1_set k v t s).trace = s.trace ++ [.l1Set k] := rfl
@[simp] lemma l1_set_store (k : String) (v : Payload) (t : Nat) (s : St)
    (k' : String) :
    (l1_set k v t s).mem.store k'
      = if k' = k then some ⟨if t > 0 then s.now + t else 0, v⟩
        else s.mem.store k' := rfl
@[simp] lemma l1_set_locks (k : String) (v : Payload) (t : Nat) (s : St) :
    (l1_set k v t s).mem.locks = s.mem.locks := rfl

@[simp] lemma l1_delete_now (k : String) (s : St) :
    (l1_delete k s).now = s.now := rfl
@[simp] lemma l1_delete_rds (k : String) (s : St) :
    (l1_delete k s).rds = s.rds := rfl
@[simp] lemma l1_delete_db (k : String) (s : St) :
    (l1_delete k s).db = s.db := rfl
@[simp] lemma l1_delete_trace (k : String) (s : St) :
    (l1_delete k s).trace = s.trace ++ [.l1Delete k] := rfl
@[simp] lemma l1_delete_store (k : String) (s : St) (k' : String) :
    (l1_delete k s).mem.store k'
      = if k' = k then none else s.mem.store k' := rfl

@[simp] lemma l1_pattern_delete_now (p : String) (s : St) :
    (l1_pattern_delete p s).now = s.now := rfl
@[simp] lemma l1_pattern_delete_rds (p : String) (s : St) :
    (l1_pattern_delete p s).rds = s.rds := rfl
@[simp] lemma l1_pattern_delete_db (p : String) (s : St) :
    (l1_pattern_delete p s).db = s.db := rfl
@[simp] lemma l1_pattern_delete_trace (p : String) (s : St) :
    (l1_pattern_delete p s).trace = s.trace ++ [.l1PatternDelete p] := rfl
@[simp] lemma l1_pattern_delete_store (p : String) (s : St) (k' : String) :
    (l1_pattern_delete p s).mem.store k'
      = if startsWith p k' then none else s.mem.store k' := rfl

@[simp] lemma get_lock_now (k : String) (s : St) :
    ((get_lock k s).2).now = s.now := rfl
@[simp] lemma get_lock_rds (k : String) (s : St) :
    ((get_lock k s).2).rds = s.rds := rfl
@[simp] lemma get_lock_db (k : String) (s : St) :
    ((get_lock k s).2).db = s.db := rfl
@[simp] lemma get_lock_trace (k : String) (s : St) :
    ((get_lock k s).2).trace = s.trace := rfl
@[simp] lemma get_lock_mem_store (k : String) (s : St) :
    ((get_lock k s).2).mem.store = s.mem.store := by
  simp [get_lock]

@[simp] lemma r_set_now (k : String) (v : Ser) (t : Nat) (s : St) :
    (r_set k v t s).now = s.now := rfl
@[simp] lemma r_set_mem (k : String) (v : Ser) (t : Nat) (s : St) :
    (r_set k v t s).mem = s.mem := rfl
@[simp] lemma r_set_db (k : String) (v : Ser) (t : Nat) (s : St) :
    (r_set k v t s).db = s.db := rfl
@[simp] lemma r_set_trace (k : String) (v : Ser) (t : Nat) (s : St) :
    (r_set k v t s).trace = s.trace ++ [.l2Set k] := rfl
@[simp] lemma r_set_rds (k : String) (v : Ser) (t : Nat) (s : St) :
    (r_set k v t s).rds = s.rds.write s.now k v t := rfl

@[simp] lemma r_delete_now (ks : List String) (s : St) :
    (r_delete ks s).now = s.now := rfl
@[simp] lemma r_delete_mem (ks : List String) (s : St) :
    (r_delete ks s).mem = s.mem := rfl
@[simp] lemma r_delete_db (ks : List String) (s : St) :
    (r_delete ks s).db = s.db := rfl
@[simp] lemma r_delete_trace (ks : List String) (s : St) :
    (r_delete ks s).trace = s.trace ++ [.l2Delete ks] := rfl
@[simp] lemma r_delete_rds (ks : List String) (s : St) :
    (r_delete ks s).rds = s.rds.del ks := rfl

@[simp] lemma db_fetch_fst {α : Type} (op : String) (f : DB → α) (s : St) :
    (db_fetch op f s).1 = f s.db := rfl
@[simp] lemma db_fetch_now {α : Type} (op : String) (f : DB → α) (s : St) :
    ((db_fetch op f s).2).now = s.now := rfl
@[simp] lemma db_fetch_mem {α : Type} (op : String) (f : DB → α) (s : St) :
    ((db_fetch op f s).2).mem = s.mem := rfl
@[simp] lemma db_fetch_rds {α : Type} (op : String) (f : DB → α) (s : St) :
    ((db_fetch op f s).2).rds = s.rds := rfl
@[simp] lemma db_fetch_db {α : Type} (op : String) (f : DB → α) (s : St) :
    ((db_fetch op f s).2).db = s.db := rfl
@[simp] lemma db_fetch_trace {α : Type} (op : String) (f : DB → α) (s : St) :
    ((db_fetch op f s).2).trace = s.trace ++ [.dbFetch op] := rfl

@[simp] lemma db_write_fst {α : Type} (op : String) (f : DB → α) (s : St) :
    (db_write op f s).1 = f s.db := rfl
@[simp] lemma db_write_now {α : Type} (op : String) (f : DB → α) (s : St) :
    ((db_write op f s).2).now = s.now := rfl
@[simp] lemma db_write_mem {α : Type} (op : String) (f : DB → α) (s : St) :
    ((db_write op f s).2).mem = s.mem := rfl
@[simp] lemma db_write_rds {α : Type} (op : String) (f : DB → α) (s : St) :
    ((db_write op f s).2).rds = s.rds := rfl
@[simp] lemma db_write_db {α : Type} (op : String) (f : DB → α) (s : St) :
    ((db_write op f s).2).db = s.db := rfl
@[simp] lemma db_write_trace {α : Type} (op : String) (f : DB → α) (s : St) :
    ((db_write op f s).2).trace = s.trace ++ [.dbWrite op] := rfl

@[simp] lemma publish_now (c : String) (s : St) :
    (publish_analytics_update c s).now = s.now := rfl
@[simp] lemma publish_mem (c : String) (s : St) :
    (publish_analytics_update c s).mem = s.mem := rfl
@[simp] lemma publish_rds (c : String) (s : St) :
    (publish_analytics_update c s).rds = s.rds := rfl
@[simp] lemma publish_db (c : String) (s : St) :
    (publish_analytics_update c s).db = s.db := rfl
@[simp] lemma publish_trace (c : String) (s : St) :
    (publish_analytics_update c s).trace
      = s.trace ++ [.publish ("analytics:" ++ c)] := rfl

@[simp] lemma stat_hit_now (ns : String) (s : St) : (stat_hit ns s).now = s.now := rfl
@[simp] lemma stat_hit_mem (ns : String) (s : St) : (stat_hit ns s).mem = s.mem := rfl
@[simp] lemma stat_hit_rds (ns : String) (s : St) : (stat_hit ns s).rds = s.rds := rfl
@[simp] lemma stat_hit_db (ns : String) (s : St) : (stat_hit ns s).db = s.db := rfl
@[simp] lemma stat_hit_trace (ns : String) (s : St) :
    (stat_hit ns s).trace = s.trace ++ [.statHit ns] := rfl

@[simp] lemma stat_miss_now (ns : String) (s : St) : (stat_miss ns s).now = s.now := rfl
@[simp] lemma stat_miss_mem (ns : String) (s : St) : (stat_miss ns s).mem = s.mem := rfl
@[simp] lemma stat_miss_rds (ns : String) (s : St) : (stat_miss ns s).rds = s.rds := rfl
@[simp] lemma stat_miss_db (ns : String) (s : St) : (stat_miss ns s).db = s.db := rfl
@[simp] lemma stat_miss_trace (ns : String) (s : St) :
    (stat_miss ns s).trace = s.trace ++ [.statMiss ns] := rfl

lemma lookup_filter_none {β : Type} (l : List (String × β)) (q : String × β → Bool)
    (k : String) (h : l.lookup k = none) : (l.filter q).lookup k = none := by
  induction l with
  | nil => rfl
  | cons a t ih =>
    rcases a with ⟨a1, a2⟩
    by_cases hk : k = a1
    · subst hk
      simp only [List.lookup, beq_self_eq_true] at h
      exact (Option.some_ne_none _ h).elim
    · have hkb : (k == a1) = false := beq_eq_false_iff_ne.mpr hk
      simp only [List.lookup, hkb] at h
      by_cases hq : q (a1, a2) <;>
        simp only [List.filter, hq, List.lookup, hkb, ih h]

lemma lookup_del_mem {β : Type} (l : List (String × β)) (ks : List String)
    (k : String) (h : ks.contains k = true) :
    (l.filter (fun kv => !ks.contains kv.1)).lookup k = none := by
  induction l with
  | nil => rfl
  | cons a t ih =>
    rcases a with ⟨a1, a2⟩
    by_cases hk : k = a1
    · subst hk; simp only [List.filter, h, Bool.not_true, ih]
    · have hkb : (k == a1) = false := beq_eq_false_iff_ne.mpr hk
      by_cases hq : ks.contains a1 <;>
        simp only [List.filter, hq, Bool.not_true, Bool.not_false,
          List.lookup, hkb, ih]

lemma lookup_del_not_mem {β : Type} (l : List (String × β)) (ks : List String)
    (k : String) (h : ks.contains k = false) :
    (l.filter (fun kv => !ks.contains kv.1)).lookup k = l.lookup k := by
  induction l with
  | nil => rfl
  | cons a t ih =>
    rcases a with ⟨a1, a2⟩
    by_cases hk : k = a1
    · subst hk
      simp only [List.filter, h, Bool.not_false, List.lookup, beq_self_eq_true, ih]
    · have hkb : (k == a1) = false := beq_eq_false_iff_ne.mpr hk
      by_cases hq : ks.contains a1 <;>
        simp only [List.filter, hq, Bool.not_true, Bool.not_false,
          List.lookup, hkb, ih]

lemma lookup_filter_conj_none {β : Type} (l : List (String × β))
    (q : String × β → Bool) (k : String) (hq : ∀ e, q (k, e) = false) :
    (l.filter q).lookup k = none := by
  induction l with
  | nil => rfl
  | cons a t ih =>
    rcases a with ⟨a1, a2⟩
    by_cases hk : k = a1
    · subst hk; simp only [List.filter, hq a2, ih]
    · have hkb : (k == a1) = false := beq_eq_false_iff_ne.mpr hk
      by_cases hqa : q (a1, a2) <;>
        simp only [List.filter, hqa, List.lookup, hkb, ih]

lemma lookup_erase_ne {β : Type} (l : List (String × β)) (key k : String)
    (h : k ≠ key) :
    (l.filter (fun kv => kv.1 != key)).lookup k = l.lookup k := by
  induction l with
  | nil => rfl
  | cons a t ih =>
    rcases a with ⟨a1, a2⟩
    by_cases hk : k = a1
    · subst hk
      have hkb : (k != key) = true := by simp [h]
      simp only [List.filter, hkb, List.lookup, beq_self_eq_true, ih]
    · have hkb : (k == a1) = false := beq_eq_false_iff_ne.mpr hk
      by_cases hq : (a1 != key) = true <;>
        simp only [List.filter, hq, Bool.not_eq_true] at * <;>
        simp only [List.filter, hq, List.lookup, hkb, ih]

lemma scan_covers {β : Type} (l : List (String × β)) (p : String → Bool)
    (k : String) (hp : p k = true) (e : β) (hl : l.lookup k = some e) :
    ((l.filter (fun kv => p kv.1)).map (fun kv => kv.1)).contains k = true := by
  induction l with
  | nil => simp [List.lookup] at hl
  | cons a t ih =>
    rcases a with ⟨a1, a2⟩
    by_cases hk : k = a1
    · subst hk
      simp only [List.filter, hp, List.map, List.contains_cons, beq_self_eq_true,
        Bool.true_or]
    · have hkb : (k == a1) = false := beq_eq_false_iff_ne.mpr hk
      simp only [List.lookup, hkb] at hl
      by_cases hq : p a1 <;>
        simp only [List.filter, hq, List.map, List.contains_cons, hkb,
          Bool.false_or, ih hl]

/-- The SCAN-and-delete purge removes every stored key matching the prefix. -/
lemma read_scanpurge (r : RedisCache) (pfx k : String) (now : Nat)
    (hp : startsWith pfx k = true) :
    ((if (r.scanKeys pfx).isEmpty then r
      else r.del (r.scanKeys pfx)).read now k) = none := by
  rcases hl : r.store.lookup k with _ | e
  · have h2 := lookup_filter_none r.store
      (fun kv => !(r.scanKeys pfx).contains kv.1) k hl
    by_cases he : (r.scanKeys pfx).isEmpty
    · simp only [he, if_true, RedisCache.read, hl]
    · simp only [he, Bool.false_eq_true, if_false, RedisCache.read,
        RedisCache.del, h2]
  · have hc : (r.scanKeys pfx).contains k = true :=
      scan_covers r.store _ k hp e hl
    have hne : ¬ ((r.scanKeys pfx).isEmpty = true) := by
      cases hsc : r.scanKeys pfx with
      | nil => rw [hsc] at hc; simp [List.contains] at hc
      | cons a t => simp [List.isEmpty]
    have h2 := lookup_del_mem r.store (r.scanKeys pfx) k hc
    simp only [hne, Bool.false_eq_true, if_false, RedisCache.read,
      RedisCache.del, h2]

/-- The purge never resurrects an absent key. -/
lemma read_scanpurge_none (r : RedisCache) (pfx k : String) (now : Nat)
    (h : r.store.lookup k = none) :
    ((if (r.scanKeys pfx).isEmpty then r
      else r.del (r.scanKeys pfx)).read now k) = none := by
  have h2 := lookup_filter_none r.store
    (fun kv => !(r.scanKeys pfx).contains kv.1) k h
  by_cases he : (r.scanKeys pfx).isEmpty
  · simp only [he, if_true, RedisCache.read, h]
  · simp only [he, Bool.false_eq_true, if_false, RedisCache.read,
      RedisCache.del, h2]

/-- Two strings differing at some character position differ. -/
lemma ne_of_probe (a b : String) (i : Nat) (h : a.data[i]? ≠ b.data[i]?) :
    a ≠ b :=
  fun e => h (e ▸ rfl)

lemma dk_ne_ck (u u' c : String) : user_dashboard_key u ≠ progress_key u' c := by
  apply ne_of_probe _ _ 0
  have h1 : (user_dashboard_key u).data[0]? = some 'u' := by
    simp [user_dashboard_key, String.data_append]
  have h2 : (progress_key u' c).data[0]? = some 'p' := by
    simp [progress_key, String.data_append]
  simp [h1, h2]

lemma dk_ne_ak (u c : String) : user_dashboard_key u ≠ analytics_course_key c := by
  apply ne_of_probe _ _ 0
  have h1 : (user_dashboard_key u).data[0]? = some 'u' := by
    simp [user_dashboard_key, String.data_append]
  have h2 : (analytics_course_key c).data[0]? = some 'a' := by
    simp [analytics_course_key, String.data_append]
  simp [h1, h2]

lemma dk_ne_sk (u u' : String) :
    user_dashboard_key u ≠ analytics_student_patterns_key u' := by
  apply ne_of_probe _ _ 0
  have h1 : (user_dashboard_key u).data[0]? = some 'u' := by
    simp [user_dashboard_key, String.data_append]
  have h2 : (analytics_student_patterns_key u').data[0]? = some 'a' := by
    simp [analytics_student_patterns_key, String.data_append]
  simp [h1, h2]

lemma dk_ne_pk (u : String) :
    user_dashboard_key u ≠ analytics_platform_overview_key := by
  apply ne_of_probe _ _ 0
  have h1 : (user_dashboard_key u).data[0]? = some 'u' := by
    simp [user_dashboard_key, String.data_append]
  have h2 : analytics_platform_overview_key.data[0]? = some 'a' := by decide
  simp [h1, h2]

lemma ak_ne_sk (c u : String) :
    analytics_course_key c ≠ analytics_student_patterns_key u := by
  apply ne_of_probe _ _ 10
  have h1 : (analytics_course_key c).data[10]? = some 'c' := by
    simp [analytics_course_key, String.data_append]
  have h2 : (analytics_student_patterns_key u).data[10]? = some 's' := by
    simp [analytics_student_patterns_key, String.data_append]
  simp [h1, h2]

lemma ak_ne_pk (c : String) :
    analytics_course_key c ≠ analytics_platform_overview_key := by
  apply ne_of_probe _ _ 10
  have h1 : (analytics_course_key c).data[10]? = some 'c' := by
    simp [analytics_course_key, String.data_append]
  have h2 : analytics_platform_overview_key.data[10]? = some 'p' := by decide
  simp [h1, h2]

lemma ak_ne_ck (c u' c' : String) :
    analytics_course_key c ≠ progress_key u' c' := by
  apply ne_of_probe _ _ 0
  have h1 : (analytics_course_key c).data[0]? = some 'a' := by
    simp [analytics_course_key, String.data_append]
  have h2 : (progress_key u' c').data[0]? = some 'p' := by
    simp [progress_key, String.data_append]
  simp [h1, h2]

lemma sk_ne_pk (u : String) :
    analytics_student_patterns_key u ≠ analytics_platform_overview_key := by
  apply ne_of_probe _ _ 10
  have h1 : (analytics_student_patterns_key u).data[10]? = some 's' := by
    simp [analytics_student_patterns_key, String.data_append]
  have h2 : analytics_platform_overview_key.data[10]? = some 'p' := by decide
  simp [h1, h2]

lemma sk_ne_ck (u u' c : String) :
    analytics_student_patterns_key u ≠ progress_key u' c := by
  apply ne_of_probe _ _ 0
  have h1 : (analytics_student_patterns_key u).data[0]? = some 'a' := by
    simp [analytics_student_patterns_key, String.data_append]
  have h2 : (progress_key u' c).data[0]? = some 'p' := by
    simp [progress_key, String.data_append]
  simp [h1, h2]

lemma pk_ne_ck (u c : String) :
    analytics_platform_overview_key ≠ progress_key u c := by
  apply ne_of_probe _ _ 0
  have h1 : analytics_platform_overview_key.data[0]? = some 'a' := by decide
  have h2 : (progress_key u c).data[0]? = some 'p' := by
    simp [progress_key, String.data_append]
  simp [h1, h2]

/-- On a double miss, `get_dashboard` recomputes the dashboard from the
source-of-record. -/
lemma dashboard_double_miss (s : St) (uid : String)
    (hL1 : (s.mem.get s.now (user_dashboard_key uid)).1 = none)
    (hL2 : s.rds.read s.now (user_dashboard_key uid) = none) :
    (get_dashboard uid s).1 = .ok (.obj (s.db.get_user_dashboard uid)) ∧
    (.dbFetch "get_user_dashboard") ∈ ((get_dashboard uid s).2).trace := by
  rcases hstore : s.mem.store (user_dashboard_key uid) with _ | e
  · simp_all [get_dashboard, l1_get, l1_set, get_lock, r_get, r_set, emit,
      stat_hit, stat_miss, db_fetch, MemCache.get, MemCache.set,
      RedisCache.write, DASHBOARD_TTL]
  · have hcond : e.expires_at ≠ 0 ∧ s.now > e.expires_at := by
      by_contra hOk
      simp [MemCache.get, hstore, hOk] at hL1
    simp_all [get_dashboard, l1_get, l1_set, get_lock, r_get, r_set, emit,
      stat_hit, stat_miss, db_fetch, MemCache.get, MemCache.set,
      RedisCache.write, DASHBOARD_TTL]

/-! ### C1 — read-after-write consistency -/

/-- **C1**: a read of a course performed immediately after a successful
`update_course_module` (with no intervening writes) returns the updated
document: the write-through re-seed leaves the fresh document in L1, and
`get_course` answers from that L1 entry. -/
theorem C1_read_after_write (s : St) (cid mid : String) (patch : Patch)
    (d : Course) (h : s.db.update_module cid mid patch = some d) :
    (get_course cid (update_course_module cid mid patch s).2).1
      = .ok (some (.course d)) := by
  simp only [update_course_module, db_write, h, _invalidate_course_lists]
  simp [get_course, l1_get, l1_set, l1_delete, l1_pattern_delete, emit,
    publish_analytics_update, r_set, r_delete, stat_hit, MemCache.get,
    MemCache.set, MemCache.delete, MemCache.pattern_delete, COURSE_TTL]

/-- Witness for C1 at a concrete state. -/
theorem C1_read_after_write_witness :
    st0.db.update_module "c1" "mod1" [] = some course1 ∧
    (get_course "c1" (update_course_module "c1" "mod1" [] st0).2).1
      = .ok (some (.course course1)) :=
  ⟨by decide, C1_read_after_write st0 "c1" "mod1" [] course1 (by decide)⟩

/-! ### C2 — the double-miss read protocol -/

/-- On a double miss, `get_course` fetches from the source; a found document
is seeded in both tiers with `COURSE_TTL`, a not-found answer is returned
uncached. -/
lemma get_course_double_miss (s : St) (cid : String)
    (hL1 : (s.mem.get s.now (course_key cid)).1 = none)
    (hL2 : s.rds.read s.now (course_key cid) = none) :
    (.dbFetch "get_course_by_id") ∈ ((get_course cid s).2).trace ∧
    (∀ d, s.db.get_course_by_id cid = some d →
      (get_course cid s).1 = .ok (some (.course d)) ∧
      ((get_course cid s).2).rds.store.lookup (course_key cid)
        = some ⟨.ser (.course d), some (s.now + COURSE_TTL)⟩ ∧
      ((get_course cid s).2).mem.store (course_key cid)
        = some ⟨s.now + COURSE_TTL, .course d⟩) ∧
    (s.db.get_course_by_id cid = none →
      (get_course cid s).1 = .ok none ∧
      ((get_course cid s).2).mem.store (course_key cid) = none ∧
      ((get_course cid s).2).rds.store.lookup (course_key cid)
        = s.rds.store.lookup (course_key cid)) := by
  rcases hstore : s.mem.store (course_key cid) with _ | e
  · rcases hdoc : s.db.get_course_by_id cid with _ | d <;>
      simp_all [get_course, l1_get, l1_set, get_lock, r_get, r_set, emit,
        stat_hit, stat_miss, db_fetch, MemCache.get, MemCache.set,
        RedisCache.write, List.lookup, COURSE_TTL]
  · have hcond : e.expires_at ≠ 0 ∧ s.now > e.expires_at := by
      by_contra hc
      simp [MemCache.get, hstore, hc] at hL1
    rcases hdoc : s.db.get_course_by_id cid with _ | d <;>
      simp_all [get_course, l1_get, l1_set, get_lock, r_get, r_set, emit,
        stat_hit, stat_miss, db_fetch, MemCache.get, MemCache.set,
        RedisCache.write, List.lookup, COURSE_TTL]

/-- On a double miss, `get_course_progress` fetches from the source; a found
record is seeded in both tiers with `PROGRESS_TTL`, a not-found answer is
returned uncached. -/
lemma progress_double_miss (s : St) (uid pcid : String)
    (hL1 : (s.mem.get s.now (progress_key uid pcid)).1 = none)
    (hL2 : s.rds.read s.now (progress_key uid pcid) = none) :
    (.dbFetch "get_user_course_progress") ∈
        ((get_course_progress uid pcid s).2).trace ∧
    (∀ d, s.db.get_user_course_progress uid pcid = some d →
      (get_course_progress uid pcid s).1 = .ok (some (.progress d)) ∧
      ((get_course_progress uid pcid s).2).rds.store.lookup (progress_key uid pcid)
        = some ⟨.ser (.progress d), some (s.now + PROGRESS_TTL)⟩ ∧
      ((get_course_progress uid pcid s).2).mem.store (progress_key uid pcid)
        = some ⟨s.now + PROGRESS_TTL, .progress d⟩) ∧
    (s.db.get_user_course_progress uid pcid = none →
      (get_course_progress uid pcid s).1 = .ok none ∧
      ((get_course_progress uid pcid s).2).mem.store (progress_key uid pcid) = none ∧
      ((get_course_progress uid pcid s).2).rds.store.lookup (progress_key uid pcid)
        = s.rds.store.lookup (progress_key uid pcid)) := by
  rcases hstore : s.mem.store (progress_key uid pcid) with _ | e
  · rcases hdoc : s.db.get_user_course_progress uid pcid with _ | d <;>
      simp_all [get_course_progress, l1_get, l1_set, get_lock, r_get, r_set,
        emit, stat_hit, stat_miss, db_fetch, MemCache.get, MemCache.set,
        RedisCache.write, List.lookup, PROGRESS_TTL]
  · have hcond : e.expires_at ≠ 0 ∧ s.now > e.expires_at := by
      by_contra hc
      simp [MemCache.get, hstore, hc] at hL1
    rcases hdoc : s.db.get_user_course_progress uid pcid with _ | d <;>
      simp_all [get_course_progress, l1_get, l1_set, get_lock, r_get, r_set,
        emit, stat_hit, stat_miss, db_fetch, MemCache.get, MemCache.set,
        RedisCache.write, List.lookup, PROGRESS_TTL]

/-- On a double miss, `list_courses` fetches the page from the source and
always caches the resulting payload — also an empty page — in both tiers with
`COURSE_LIST_TTL`. -/
lemma list_courses_double_miss (s : St) (q : Option String) (filters : Patch)
    (page page_size : Nat) (sort_by : String)
    (hL1 : (s.mem.get s.now
      (courses_list_key (_filters_key q filters page page_size sort_by))).1 = none)
    (hL2 : s.rds.read s.now
      (courses_list_key (_filters_key q filters page page_size sort_by)) = none) :
    (.dbFetch "list_courses") ∈
        ((list_courses q filters page page_size sort_by s).2).trace ∧
    (list_courses q filters page page_size sort_by s).1
      = .ok (.listPage (s.db.list_courses q filters page page_size sort_by).1
          page page_size (s.db.list_courses q filters page page_size sort_by).2) ∧
    ((list_courses q filters page page_size sort_by s).2).rds.store.lookup
        (courses_list_key (_filters_key q filters page page_size sort_by))
      = some ⟨.ser (.listPage (s.db.list_courses q filters page page_size sort_by).1
          page page_size (s.db.list_courses q filters page page_size sort_by).2),
          some (s.now + COURSE_LIST_TTL)⟩ ∧
    ((list_courses q filters page page_size sort_by s).2).mem.store
        (courses_list_key (_filters_key q filters page page_size sort_by))
      = some ⟨s.now + COURSE_LIST_TTL,
          .listPage (s.db.list_courses q filters page page_size sort_by).1
            page page_size (s.db.list_courses q filters page page_size sort_by).2⟩ := by
  rcases hstore : s.mem.store
      (courses_list_key (_filters_key q filters page page_size sort_by)) with _ | e
  · simp_all [list_courses, l1_get, l1_set, get_lock, r_get, r_set, emit,
      stat_hit, stat_miss, db_fetch, MemCache.get, MemCache.set,
      RedisCache.write, List.lookup, COURSE_LIST_TTL]
  · have hcond : e.expires_at ≠ 0 ∧ s.now > e.expires_at := by
      by_contra hc
      simp [MemCache.get, hstore, hc] at hL1
    simp_all [list_courses, l1_get, l1_set, get_lock, r_get, r_set, emit,
      stat_hit, stat_miss, db_fetch, MemCache.get, MemCache.set,
      RedisCache.write, List.lookup, COURSE_LIST_TTL]

/-- **C2**: for each cached read (`get_course`, `list_courses`,
`get_course_progress`) on a miss at both tiers the value is fetched from the
source-of-record; a found value is written to L2 with the resource TTL and to
L1 with the same TTL and returned; a not-found answer is returned with
nothing cached in either tier. -/
theorem C2_double_miss_protocol (s : St) (cid uid pcid : String)
    (q : Option String) (filters : Patch) (page page_size : Nat)
    (sort_by : String)
    (h1 : (s.mem.get s.now (course_key cid)).1 = none)
    (h2 : s.rds.read s.now (course_key cid) = none)
    (h3 : (s.mem.get s.now (progress_key uid pcid)).1 = none)
    (h4 : s.rds.read s.now (progress_key uid pcid) = none)
    (h5 : (s.mem.get s.now
      (courses_list_key (_filters_key q filters page page_size sort_by))).1 = none)
    (h6 : s.rds.read s.now
      (courses_list_key (_filters_key q filters page page_size sort_by)) = none) :
    ((.dbFetch "get_course_by_id") ∈ ((get_course cid s).2).trace ∧
     (∀ d, s.db.get_course_by_id cid = some d →
       (get_course cid s).1 = .ok (some (.course d)) ∧
       ((get_course cid s).2).rds.store.lookup (course_key cid)
         = some ⟨.ser (.course d), some (s.now + COURSE_TTL)⟩ ∧
       ((get_course cid s).2).mem.store (course_key cid)
         = some ⟨s.now + COURSE_TTL, .course d⟩) ∧
     (s.db.get_course_by_id cid = none →
       (get_course cid s).1 = .ok none ∧
       ((get_course cid s).2).mem.store (course_key cid) = none ∧
       ((get_course cid s).2).rds.store.lookup (course_key cid)
         = s.rds.store.lookup (course_key cid))) ∧
    ((.dbFetch "get_user_course_progress") ∈
        ((get_course_progress uid pcid s).2).trace ∧
     (∀ d, s.db.get_user_course_progress uid pcid = some d →
       (get_course_progress uid pcid s).1 = .ok (some (.progress d)) ∧
       ((get_course_progress uid pcid s).2).rds.store.lookup (progress_key uid pcid)
         = some ⟨.ser (.progress d), some (s.now + PROGRESS_TTL)⟩ ∧
       ((get_course_progress uid pcid s).2).mem.store (progress_key uid pcid)
         = some ⟨s.now + PROGRESS_TTL, .progress d⟩) ∧
     (s.db.get_user_course_progress uid pcid = none →
       (get_course_progress uid pcid s).1 = .ok none ∧
       ((get_course_progress uid pcid s).2).mem.store (progress_key uid pcid) = none ∧
       ((get_course_progress uid pcid s).2).rds.store.lookup (progress_key uid pcid)
         = s.rds.store.lookup (progress_key uid pcid))) ∧
    ((.dbFetch "list_courses") ∈
        ((list_courses q filters page page_size sort_by s).2).trace ∧
     (list_courses q filters page page_size sort_by s).1
       = .ok (.listPage (s.db.list_courses q filters page page_size sort_by).1
           page page_size (s.db.list_courses q filters page page_size sort_by).2) ∧
     ((list_courses q filters page page_size sort_by s).2).rds.store.lookup
         (courses_list_key (_filters_key q filters page page_size sort_by))
       = some ⟨.ser (.listPage (s.db.list_courses q filters page page_size sort_by).1
           page page_size (s.db.list_courses q filters page page_size sort_by).2),
           some (s.now + COURSE_LIST_TTL)⟩ ∧
     ((list_courses q filters page page_size sort_by s).2).mem.store
         (courses_list_key (_filters_key q filters page page_size sort_by))
       = some ⟨s.now + COURSE_LIST_TTL,
           .listPage (s.db.list_courses q filters page page_size sort_by).1
             page page_size (s.db.list_courses q filters page page_size sort_by).2⟩) :=
  ⟨get_course_double_miss s cid h1 h2,
   progress_double_miss s uid pcid h3 h4,
   list_courses_double_miss s q filters page page_size sort_by h5 h6⟩

/-- Witness for C2 at a cold state: a found course, a not-found progress
record, and a list page. -/
theorem C2_double_miss_protocol_witness :
    (get_course "c1" st0).1 = .ok (some (.course course1)) ∧
    (get_course_progress "u1" "c1" st0).1 = .ok none ∧
    ((get_course_progress "u1" "c1" st0).2).mem.store (progress_key "u1" "c1")
      = none ∧
    (list_courses none [] 1 12 "recent" st0).1 = .ok (.listPage 1 1 12 [course1]) := by
  have h := C2_double_miss_protocol st0 "c1" "u1" "c1" none [] 1 12 "recent"
    (by decide) (by decide) (by decide) (by decide) (by decide) (by decide)
  exact ⟨(h.1.2.1 course1 (by decide)).1, (h.2.1.2.2 (by decide)).1,
    (h.2.1.2.2 (by decide)).2.1, h.2.2.2.1⟩

/-! ### C3 — cascading invalidation clears both tiers -/

set_option maxRecDepth 8000 in
/-- **C3**: `complete_lesson` deletes the progress, dashboard,
course-analytics, student-patterns and platform-overview keys from both tiers
before it completes; the derived keys are afterwards absent from both tiers
and a subsequent dashboard read recomputes from the source; and
`invalidate_course_cache` clears the course key, its analytics key, and every
`courses_list:`-prefixed page from both tiers. -/
theorem C3_cascading_invalidation (s : St) (uid cid lid : String) (c : Course)
    (hc : s.db.get_course_by_id cid = some c)
    (hl : c.modules.any (fun m => m.lessons.any (fun l => l.lesson_id == lid)) = true) :
    (∀ k ∈ [progress_key uid cid, user_dashboard_key uid,
            analytics_course_key cid, analytics_student_patterns_key uid,
            analytics_platform_overview_key],
       (.l1Delete k) ∈ ((complete_lesson uid cid lid s).2).trace ∧
       (.l2Delete [k]) ∈ ((complete_lesson uid cid lid s).2).trace) ∧
    (∀ k ∈ [user_dashboard_key uid, analytics_course_key cid,
            analytics_student_patterns_key uid,
            analytics_platform_overview_key],
       ((complete_lesson uid cid lid s).2).mem.store k = none ∧
       ((complete_lesson uid cid lid s).2).rds.store.lookup k = none) ∧
    ((get_dashboard uid ((complete_lesson uid cid lid s).2)).1
        = .ok (.obj (s.db.get_user_dashboard uid)) ∧
     (.dbFetch "get_user_dashboard") ∈
        ((get_dashboard uid ((complete_lesson uid cid lid s).2)).2).trace) ∧
    (∀ cid2, isValidObjectId cid2 = true →
       ((invalidate_course_cache cid2 s).2).mem.store (course_key cid2) = none ∧
       ((invalidate_course_cache cid2 s).2).mem.store
          (analytics_course_key cid2) = none ∧
       ((invalidate_course_cache cid2 s).2).rds.read s.now (course_key cid2)
          = none ∧
       ((invalidate_course_cache cid2 s).2).rds.read s.now
          (analytics_course_key cid2) = none ∧
       (∀ k, startsWith "courses_list:" k = true →
         ((invalidate_course_cache cid2 s).2).mem.store k = none ∧
         ((invalidate_course_cache cid2 s).2).rds.read s.now k = none)) := by
  have n1 := dk_ne_ck uid uid cid
  have n2 := dk_ne_ak uid cid
  have n3 := dk_ne_sk uid uid
  have n4 := dk_ne_pk uid
  have n5 := ak_ne_sk cid uid
  have n6 := ak_ne_pk cid
  have n7 := ak_ne_ck cid uid cid
  have n8 := sk_ne_pk uid
  have n9 := sk_ne_ck uid uid cid
  have n10 := pk_ne_ck uid cid
  have b1 : (user_dashboard_key uid == progress_key uid cid) = false :=
    beq_eq_false_iff_ne.mpr n1
  have b2 : (analytics_course_key cid == progress_key uid cid) = false :=
    beq_eq_false_iff_ne.mpr n7
  have b3 : (analytics_student_patterns_key uid == progress_key uid cid) = false :=
    beq_eq_false_iff_ne.mpr n9
  have b4 : (analytics_platform_overview_key == progress_key uid cid) = false :=
    beq_eq_false_iff_ne.mpr n10
  refine ⟨?_, ?_, ?_, ?_⟩
  · intro k hk
    fin_cases hk <;>
      constructor <;>
        simp [complete_lesson, _assert_lesson_belongs_to_course, db_fetch,
          db_write, hc, hl]
  · intro k hk
    fin_cases hk
    · refine ⟨by simp [complete_lesson, _assert_lesson_belongs_to_course,
        db_fetch, db_write, hc, hl, n1, n2, n3, n4], ?_⟩
      simp [complete_lesson, _assert_lesson_belongs_to_course, db_fetch,
        db_write, hc, hl, RedisCache.del, RedisCache.write, List.lookup,
        b1, eq_comm]
      exact (lookup_filter_conj_none _ _ _ (fun e => by simp)).symm
    · refine ⟨by simp [complete_lesson, _assert_lesson_belongs_to_course,
        db_fetch, db_write, hc, hl, n5, n6, n7], ?_⟩
      simp [complete_lesson, _assert_lesson_belongs_to_course, db_fetch,
        db_write, hc, hl, RedisCache.del, RedisCache.write, List.lookup,
        b2, eq_comm]
      exact (lookup_filter_conj_none _ _ _ (fun e => by simp)).symm
    · refine ⟨by simp [complete_lesson, _assert_lesson_belongs_to_course,
        db_fetch, db_write, hc, hl, n8, n9], ?_⟩
      simp [complete_lesson, _assert_lesson_belongs_to_course, db_fetch,
        db_write, hc, hl, RedisCache.del, RedisCache.write, List.lookup,
        b3, eq_comm]
      exact (lookup_filter_conj_none _ _ _ (fun e => by simp)).symm
    · refine ⟨by simp [complete_lesson, _assert_lesson_belongs_to_course,
        db_fetch, db_write, hc, hl, n10], ?_⟩
      simp [complete_lesson, _assert_lesson_belongs_to_course, db_fetch,
        db_write, hc, hl, RedisCache.del, RedisCache.write, List.lookup,
        b4, eq_comm]
      exact (lookup_filter_conj_none _ _ _ (fun e => by simp)).symm
  · have hmem : ((complete_lesson uid cid lid s).2).mem.store
        (user_dashboard_key uid) = none := by
      simp [complete_lesson, _assert_lesson_belongs_to_course, db_fetch,
        db_write, hc, hl, n1, n2, n3, n4]
    have hrds : ((complete_lesson uid cid lid s).2).rds.store.lookup
        (user_dashboard_key uid) = none := by
      simp [complete_lesson, _assert_lesson_belongs_to_course, db_fetch,
        db_write, hc, hl, RedisCache.del, RedisCache.write, List.lookup,
        b1, eq_comm]
      exact (lookup_filter_conj_none _ _ _ (fun e => by simp)).symm
    have hnow : ((complete_lesson uid cid lid s).2).now = s.now := by
      simp [complete_lesson, _assert_lesson_belongs_to_course, db_fetch,
        db_write, hc, hl]
    have hdb : ((complete_lesson uid cid lid s).2).db = s.db := by
      simp [complete_lesson, _assert_lesson_belongs_to_course, db_fetch,
        db_write, hc, hl]
    have h := dashboard_double_miss ((complete_lesson uid cid lid s).2) uid
      (by simp [MemCache.get, hmem]) (by simp [RedisCache.read, hrds])
    rw [hdb] at h
    exact h
  · intro cid2 hv
    have hvr : (¬ isValidObjectId cid2 = true) = False := by simp [hv]
    refine ⟨?_, ?_, ?_, ?_, ?_⟩
    · simp [invalidate_course_cache, hvr, apply_ite]
    · simp [invalidate_course_cache, hvr, apply_ite]
    · have hdel : (RedisCache.del s.rds
          [course_key cid2, analytics_course_key cid2]).store.lookup
          (course_key cid2) = none :=
        lookup_del_mem _ _ _ (by simp)
      have hred := read_scanpurge_none
        (s.rds.del [course_key cid2, analytics_course_key cid2])
        "courses_list:" (course_key cid2) s.now hdel
      simp only [invalidate_course_cache, hvr, if_false, apply_ite St.rds,
        emit_rds, l1_delete_rds, l1_pattern_delete_rds, r_delete_rds]
      exact hred
    · have hdel : (RedisCache.del s.rds
          [course_key cid2, analytics_course_key cid2]).store.lookup
          (analytics_course_key cid2) = none :=
        lookup_del_mem _ _ _ (by simp)
      have hred := read_scanpurge_none
        (s.rds.del [course_key cid2, analytics_course_key cid2])
        "courses_list:" (analytics_course_key cid2) s.now hdel
      simp only [invalidate_course_cache, hvr, if_false, apply_ite St.rds,
        emit_rds, l1_delete_rds, l1_pattern_delete_rds, r_delete_rds]
      exact hred
    · intro k hk
      constructor
      · simp [invalidate_course_cache, hvr, hk, apply_ite]
      · have hred := read_scanpurge
          (s.rds.del [course_key cid2, analytics_course_key cid2])
          "courses_list:" k s.now hk
        simp only [invalidate_course_cache, hvr, if_false, apply_ite St.rds,
          emit_rds, l1_delete_rds, l1_pattern_delete_rds, r_delete_rds]
        exact hred

/-- Witness for C3 at a concrete lesson completion and a concrete course-cache
invalidation. -/
theorem C3_cascading_invalidation_witness :
    (.l1Delete (user_dashboard_key "u1"))
      ∈ ((complete_lesson "u1" "c1" "les1" st0).2).trace ∧
    ((complete_lesson "u1" "c1" "les1" st0).2).mem.store
      (user_dashboard_key "u1") = none ∧
    (get_dashboard "u1" ((complete_lesson "u1" "c1" "les1" st0).2)).1
      = .ok (.obj dash1) ∧
    ((invalidate_course_cache "0123456789abcdef01234567" st0).2).mem.store
      (course_key "0123456789abcdef01234567") = none := by
  have h := C3_cascading_invalidation st0 "u1" "c1" "les1" course1
    (by decide) (by decide)
  exact ⟨(h.1 _ (by simp)).1, (h.2.1 _ (by simp)).1, h.2.2.1.1,
    (h.2.2.2 _ (by decide)).1⟩

/-! ### C4 — ordering within a write handler -/

/-- **C4 counterexample**: in the concrete trace of `complete_lesson` the
write-through re-seed (`r.set`/`_set_l1` of the progress key) occurs before
the event publishes, so the claimed ordering "every event publish happens
strictly before any write-through re-seed" is false. -/
theorem C4_publish_before_reseed_false :
    allBefore Action.isPublish Action.isReseed
      ((complete_lesson "u1" "c1" "les1" st0).2).trace = false := by
  decide

/-- **C4 (amended)**: within each write handler (`create_course`,
`update_course_module`, `complete_lesson`), the source-of-record mutation
happens strictly before any cache invalidation and every cache invalidation
happens strictly before any event publish, as claimed; but the write-through
re-seed also happens strictly before any event publish — the claimed order of
publish and re-seed is reversed. -/
theorem C4_write_ordering (s : St) (hs : s.trace = [])
    (cid mid uid lid : String) (patch data : Patch) (d c : Course)
    (hdoc : s.db.update_module cid mid patch = some d)
    (hc : s.db.get_course_by_id cid = some c)
    (hl : c.modules.any (fun m => m.lessons.any (fun l => l.lesson_id == lid)) = true) :
    (allBefore Action.isMutation Action.isInvalidation
        ((update_course_module cid mid patch s).2).trace = true ∧
     allBefore Action.isInvalidation Action.isPublish
        ((update_course_module cid mid patch s).2).trace = true ∧
     allBefore Action.isReseed Action.isPublish
        ((update_course_module cid mid patch s).2).trace = true) ∧
    (allBefore Action.isMutation Action.isInvalidation
        ((create_course data s).2).trace = true ∧
     allBefore Action.isInvalidation Action.isPublish
        ((create_course data s).2).trace = true ∧
     allBefore Action.isReseed Action.isPublish
        ((create_course data s).2).trace = true) ∧
    (allBefore Action.isMutation Action.isInvalidation
        ((complete_lesson uid cid lid s).2).trace = true ∧
     allBefore Action.isInvalidation Action.isPublish
        ((complete_lesson uid cid lid s).2).trace = true ∧
     allBefore Action.isReseed Action.isPublish
        ((complete_lesson uid cid lid s).2).trace = true) := by
  refine ⟨?_, ?_, ?_⟩
  · by_cases hks : (((s.rds.del [course_key cid]).scanKeys
        "courses_list:").isEmpty) <;>
      refine ⟨?_, ?_, ?_⟩ <;>
        simp [update_course_module, _invalidate_course_lists, db_write,
          hdoc, hs, hks, allBefore, Action.isMutation, Action.isInvalidation,
          Action.isPublish, Action.isReseed]
  · by_cases hks : ((s.rds.scanKeys "courses_list:").isEmpty) <;>
      refine ⟨?_, ?_, ?_⟩ <;>
        simp [create_course, _invalidate_course_lists, db_write,
          hs, hks, allBefore, Action.isMutation, Action.isInvalidation,
          Action.isPublish, Action.isReseed]
  · refine ⟨?_, ?_, ?_⟩ <;>
      simp [complete_lesson, _assert_lesson_belongs_to_course, db_fetch,
        db_write, hc, hl, hs, allBefore, Action.isMutation,
        Action.isInvalidation, Action.isPublish, Action.isReseed]

/-- Witness for the amended C4 at a concrete state. -/
theorem C4_write_ordering_witness :
    allBefore Action.isReseed Action.isPublish
      ((complete_lesson "u1" "c1" "les1" st0).2).trace = true :=
  (C4_write_ordering st0 rfl "c1" "mod1" "u1" "les1" [] [] course1 course1
    (by decide) (by decide) (by decide)).2.2.2.2

/-! ### C5 — the L1 TTL on an L2 hit -/

/-- **C5 counterexample**: `get_course` populates L1 from an L2 hit with the
full `COURSE_TTL` (300 s) even when the L2 copy has only 1 second of TTL
left, so the L1 entry's TTL exceeds the remaining TTL of the L2 copy it was
read from. -/
theorem C5_l1_ttl_exceeds_l2_remaining :
    ((get_course "c1" stShortL2).2).mem.store (course_key "c1")
      = some ⟨400, .course course1⟩ ∧
    stShortL2.rds.store.lookup (course_key "c1")
      = some ⟨.ser (.course course1), some 101⟩ ∧
    stShortL2.now = 100 ∧
    ¬ (400 - stShortL2.now ≤ 101 - stShortL2.now) := by
  decide

/-- **C5 (amended)**: when L1 is populated from an L2 hit, the TTL given to
the new L1 entry is a fixed constant independent of the remaining TTL of the
L2 copy — the full resource TTL in `get_course` and `get_course_progress`,
and half the TTL in the analytics `_get_cache` — and may therefore exceed the
remaining L2 TTL. -/
theorem C5_l1_ttl_is_constant (s : St) (cid uid pcid key : String) (ttl : Nat)
    (p q1 q2 : Payload)
    (h1 : (s.mem.get s.now (course_key cid)).1 = none)
    (h2 : s.rds.read s.now (course_key cid) = some (.ser p))
    (h3 : (s.mem.get s.now (progress_key uid pcid)).1 = none)
    (h4 : s.rds.read s.now (progress_key uid pcid) = some (.ser q1))
    (h5 : (s.mem.get s.now key).1 = none)
    (h6 : s.rds.read s.now key = some (.ser q2)) :
    ((get_course cid s).2).mem.store (course_key cid)
      = some ⟨s.now + COURSE_TTL, p⟩ ∧
    ((get_course_progress uid pcid s).2).mem.store (progress_key uid pcid)
      = some ⟨s.now + PROGRESS_TTL, q1⟩ ∧
    ((_get_cache key ttl s).2).mem.store key
      = some ⟨if ttl / 2 > 0 then s.now + ttl / 2 else 0, q2⟩ := by
  refine ⟨?_, ?_, ?_⟩
  · rcases hstore : s.mem.store (course_key cid) with _ | e
    · simp_all [get_course, l1_get, get_lock, r_get, loads, MemCache.get,
        COURSE_TTL]
    · have hcond : e.expires_at ≠ 0 ∧ s.now > e.expires_at := by
        by_contra hOk
        simp [MemCache.get, hstore, hOk] at h1
      simp_all [get_course, l1_get, get_lock, r_get, loads, MemCache.get,
        COURSE_TTL]
  · rcases hstore : s.mem.store (progress_key uid pcid) with _ | e
    · simp_all [get_course_progress, l1_get, get_lock, r_get, loads,
        MemCache.get, PROGRESS_TTL]
    · have hcond : e.expires_at ≠ 0 ∧ s.now > e.expires_at := by
        by_contra hOk
        simp [MemCache.get, hstore, hOk] at h3
      simp_all [get_course_progress, l1_get, get_lock, r_get, loads,
        MemCache.get, PROGRESS_TTL]
  · rcases hstore : s.mem.store key with _ | e
    · simp_all [_get_cache, l1_get, r_get, loads, MemCache.get]
    · have hcond : e.expires_at ≠ 0 ∧ s.now > e.expires_at := by
        by_contra hOk
        simp [MemCache.get, hstore, hOk] at h5
      simp_all [_get_cache, l1_get, r_get, loads, MemCache.get]

/-- Witness for the amended C5 at a concrete L2-hit state. -/
theorem C5_l1_ttl_is_constant_witness :
    ((get_course "c1" stL2hit).2).mem.store (course_key "c1")
      = some ⟨300, .course course1⟩ ∧
    ((get_course_progress "u1" "c1" stL2hit).2).mem.store
        (progress_key "u1" "c1") = some ⟨600, .progress prog1⟩ ∧
    ((_get_cache "analytics:platform:overview" PLATFORM_ANALYTICS_TTL
        stL2hit).2).mem.store "analytics:platform:overview"
      = some ⟨1350, .obj dash1⟩ := by
  have h := C5_l1_ttl_is_constant stL2hit "c1" "u1" "c1"
    "analytics:platform:overview" PLATFORM_ANALYTICS_TTL
    (.course course1) (.progress prog1) (.obj dash1)
    (by decide) (by decide) (by decide) (by decide) (by decide) (by decide)
  exact ⟨h.1, h.2.1, h.2.2⟩

/-! ### C9 — handling of undeserializable L2 payloads -/

/-- **C9 counterexample**: in `get_course` an undeserializable L2 payload is
*not* treated as a miss: `json.loads` raises to the caller and the corrupt
entry is left in place. -/
theorem C9_get_course_corrupt_raises :
    (get_course "c1" stCorrupt).1 = .error .jsonDecodeError ∧
    ((get_course "c1" stCorrupt).2).rds.store.lookup (course_key "c1")
      = some ⟨.corrupt, some 500⟩ := by
  decide

/-- **C9 (amended)**: only the analytics read path treats an undeserializable
L2 payload as a miss and proactively deletes it — `_get_cache` returns `none`
after deleting the corrupt entry, and `platform_overview` then recomputes
from the source; `get_course` instead propagates the deserialization error to
its caller without deleting the corrupt entry. -/
theorem C9_corrupt_payload_handling (s : St) (cid : String) (ttl : Nat)
    (key : String)
    (hA : (s.mem.get s.now key).1 = none)
    (hB : s.rds.read s.now key = some .corrupt)
    (hP : (s.mem.get s.now analytics_platform_overview_key).1 = none)
    (hQ : s.rds.read s.now analytics_platform_overview_key = some .corrupt)
    (hC : (s.mem.get s.now (course_key cid)).1 = none)
    (hD : s.rds.read s.now (course_key cid) = some .corrupt) :
    ((_get_cache key ttl s).1 = none ∧
     ((_get_cache key ttl s).2).rds.store.lookup key = none) ∧
    ((platform_overview s).1 = .ok (.obj s.db.platform_overview_agg) ∧
     (.dbFetch "platform_overview_agg") ∈ ((platform_overview s).2).trace) ∧
    ((get_course cid s).1 = .error .jsonDecodeError ∧
     ((get_course cid s).2).rds = s.rds) := by
  have hdel : ∀ key' : String,
      (s.rds.del [key']).store.lookup key' = none := fun key' =>
    lookup_del_mem _ _ _ (by simp)
  refine ⟨?_, ?_, ?_⟩
  · rcases hstore : s.mem.store key with _ | e
    · constructor
      · simp_all [_get_cache, l1_get, r_get, loads, MemCache.get]
      · simp_all [_get_cache, l1_get, r_get, loads, MemCache.get,
          r_delete_rds, hdel key]
    · have hcond : e.expires_at ≠ 0 ∧ s.now > e.expires_at := by
        by_contra hOk
        simp [MemCache.get, hstore, hOk] at hA
      constructor
      · simp_all [_get_cache, l1_get, r_get, loads, MemCache.get]
      · simp_all [_get_cache, l1_get, r_get, loads, MemCache.get,
          r_delete_rds, hdel key]
  · rcases hstore : s.mem.store analytics_platform_overview_key with _ | e
    · constructor <;>
        simp_all [platform_overview, _get_cache, _set_cache, l1_get, r_get,
          loads, MemCache.get, db_fetch]
    · have hcond : e.expires_at ≠ 0 ∧ s.now > e.expires_at := by
        by_contra hOk
        simp [MemCache.get, hstore, hOk] at hP
      constructor <;>
        simp_all [platform_overview, _get_cache, _set_cache, l1_get, r_get,
          loads, MemCache.get, db_fetch]
  · rcases hstore : s.mem.store (course_key cid) with _ | e
    · constructor <;>
        simp_all [get_course, l1_get, get_lock, r_get, loads, MemCache.get]
    · have hcond : e.expires_at ≠ 0 ∧ s.now > e.expires_at := by
        by_contra hOk
        simp [MemCache.get, hstore, hOk] at hC
      constructor <;>
        simp_all [get_course, l1_get, get_lock, r_get, loads, MemCache.get]

/-- Witness for the amended C9 at a state whose course and platform-overview
L2 entries are both corrupt. -/
theorem C9_corrupt_payload_handling_witness :
    ((_get_cache "analytics:platform:overview" 600 stCorrupt2).1 = none ∧
     ((_get_cache "analytics:platform:overview" 600 stCorrupt2).2).rds.store.lookup
        "analytics:platform:overview" = none) ∧
    ((platform_overview stCorrupt2).1
        = .ok (.obj stCorrupt2.db.platform_overview_agg) ∧
     (.dbFetch "platform_overview_agg")
        ∈ ((platform_overview stCorrupt2).2).trace) ∧
    ((get_course "c1" stCorrupt2).1 = .error .jsonDecodeError ∧
     ((get_course "c1" stCorrupt2).2).rds = stCorrupt2.rds) :=
  C9_corrupt_payload_handling stCorrupt2 "c1" 600
    "analytics:platform:overview"
    (by decide) (by decide) (by decide) (by decide) (by decide) (by decide)

/-! ### C10 — cache-warming fault isolation -/

/-- `course_performance` only appends to the effect trace. -/
lemma course_performance_trace_mono (cid : String) (s : St) (a : Action)
    (h : a ∈ s.trace) : a ∈ ((course_performance cid s).2).trace := by
  rcases hstore : s.mem.store (analytics_course_key cid) with _ | e
  · rcases hl2 : s.rds.read s.now (analytics_course_key cid) with _ | blob
    · rcases hres : s.db.course_perf_agg cid with _ | agg <;>
        simp_all [course_performance, _get_cache, _set_cache, l1_get, r_get,
          db_fetch, MemCache.get]
    · cases blob
      · simp_all [course_performance, _get_cache, _set_cache, l1_get, r_get,
          db_fetch, MemCache.get, loads]
      · rcases hres : s.db.course_perf_agg cid with _ | agg <;>
          simp_all [course_performance, _get_cache, _set_cache, l1_get, r_get,
            db_fetch, MemCache.get, loads]
  · by_cases hcond : e.expires_at ≠ 0 ∧ s.now > e.expires_at
    · rcases hl2 : s.rds.read s.now (analytics_course_key cid) with _ | blob
      · rcases hres : s.db.course_perf_agg cid with _ | agg <;>
          simp_all [course_performance, _get_cache, _set_cache, l1_get, r_get,
            db_fetch, MemCache.get]
      · cases blob
        · simp_all [course_performance, _get_cache, _set_cache, l1_get, r_get,
            db_fetch, MemCache.get, loads]
        · rcases hres : s.db.course_perf_agg cid with _ | agg <;>
            simp_all [course_performance, _get_cache, _set_cache, l1_get, r_get,
              db_fetch, MemCache.get, loads]
    · simp [course_performance, _get_cache, l1_get, MemCache.get, hstore,
        if_neg hcond, h]

/-- The per-course warming fold preserves trace membership. -/
lemma foldl_course_perf_mem (ids : List String) (s : St) (a : Action)
    (h : a ∈ s.trace) :
    a ∈ (ids.foldl (fun s cid => protected_run (course_performance cid) s)
          s).trace := by
  induction ids generalizing s with
  | nil => exact h
  | cons i t ih => exact ih _ (course_performance_trace_mono i s a h)

/-- **C10 counterexample**: when the `recent` sort's list page fails to warm
(its L2 blob is undeserializable), `warm_courses_cache` raises and the
remaining sub-tasks are aborted: the `popular` page is never warmed in either
tier and the source is never queried for any list page. -/
theorem C10_warm_courses_cache_fail_fast :
    (warm_courses_cache stWarmFail).1 = .error .jsonDecodeError ∧
    ((warm_courses_cache stWarmFail).2).mem.store
      (courses_list_key (_filters_key none [] 1 WARM_PAGE_SIZE "popular"))
      = none ∧
    ((warm_courses_cache stWarmFail).2).rds.store.lookup
      (courses_list_key (_filters_key none [] 1 WARM_PAGE_SIZE "popular"))
      = none ∧
    (.dbFetch "list_courses") ∉ ((warm_courses_cache stWarmFail).2).trace := by
  decide

/-- **C10 (amended)**: `warm_critical_caches` and `_warm_top_courses` gather
their sub-tasks with `return_exceptions=True`, so one sub-task's failure does
not abort the others — concretely, when the `warm_courses_cache` branch
raises, the platform-overview and top-course-analytics branches still
complete — and for every state the top-courses branch queries the source.
`warm_courses_cache` itself remains fail-fast (see the counterexample). -/
theorem C10_warm_critical_isolation (s : St) :
    ((warm_courses_cache stWarmFail).1 = .error .jsonDecodeError ∧
     ((warm_critical_caches stWarmFail).mem.store
        analytics_platform_overview_key).isSome = true ∧
     ((warm_critical_caches stWarmFail).mem.store
        (analytics_course_key "c2")).isSome = true ∧
     (.dbFetch "platform_overview_agg") ∈ (warm_critical_caches stWarmFail).trace ∧
     (.dbFetch "progress_aggregate") ∈ (warm_critical_caches stWarmFail).trace) ∧
    (.dbFetch "list_courses") ∈ (warm_critical_caches s).trace := by
  constructor
  · decide
  · show (.dbFetch "list_courses")
      ∈ (protected_run (_warm_top_courses 10)
          (protected_run warm_courses_cache
            (protected_run platform_overview s))).trace
    generalize (protected_run warm_courses_cache
      (protected_run platform_overview s)) = s2
    show (.dbFetch "list_courses") ∈ ((_warm_top_courses 10 s2).2).trace
    unfold _warm_top_courses
    exact foldl_course_perf_mem _ _ _ (by simp [db_fetch])

/-- Witness for the amended C10: the universally quantified part evaluated at
the concrete failing state. -/
theorem C10_warm_critical_isolation_witness :
    (.dbFetch "list_courses") ∈ (warm_critical_caches stWarmFail).trace :=
  (C10_warm_critical_isolation stWarmFail).2

/-! ### C7 — the backup/restore round-trip -/

/-- **C7**: the backup → restore round-trip is broken.  With the
application's `decode_responses=True` client (deps.py), `redis.type` returns
the decoded string `"string"`, which `create_backup` compares against the
bytes literal `b"string"`; in Python a `str` never equals a `bytes`, so every
key fails the type test, the snapshot's data section is empty, and restoring
it into a flushed L2 reproduces nothing: key `A` (string `"1"`, TTL 100 at
backup time) is absent after the round trip instead of being restored with
remaining TTL ≤ 100. -/
theorem C7_backup_restore_roundtrip_broken :
    Backup.lookup bdb1 "A" = some (.str "1", some 100) ∧
    (Backup.create_backup bdb1 0).data = [] ∧
    (Backup.restore_backup
        (fun n => if n = "rt" then some (.good (Backup.create_backup bdb1 0))
                  else none)
        "rt" true bdb1 0).1 = .ok true ∧
    Backup.lookup
      ((Backup.restore_backup
          (fun n => if n = "rt" then some (.good (Backup.create_backup bdb1 0))
                    else none)
          "rt" true bdb1 0).2) "A" = none := by
  decide

/-! ### C8 — restore failure semantics -/

/-- **C8 counterexample**: a snapshot blob that exists but is unreadable does
not make `restore_backup` return the failure value — `json.load` raises and
the exception propagates (with the store already flushed). -/
theorem C8_unreadable_blob_raises :
    (Backup.restore_backup blobsBad "snap" true bdb1 0).1 = .error () ∧
    (Backup.restore_backup blobsBad "snap" true bdb1 0).1 ≠ .ok false := by
  decide

/-- **C8 (amended)**: `restore_backup` returns "not restored" only for a
*missing* snapshot blob (leaving the store untouched); an unreadable blob
raises instead of returning the failure value.  The per-key writes are
batched through one MULTI/EXEC pipeline, so a single key whose replay fails
at the server (here `h1`, a hash replayed onto an existing string key) leaves
the remaining keys restored, although the call reports the error rather than
success. -/
theorem C8_restore_failure_semantics (blobs : String → Option Backup.Blob)
    (name : String) (ce : Bool) (db : Backup.BDb) (now : Nat)
    (hmiss : blobs name = none) :
    Backup.restore_backup blobs name ce db now = (.ok false, db) ∧
    (Backup.restore_backup blobsMix "mix" false bdbMix 0).1 = .error () ∧
    Backup.lookup
      ((Backup.restore_backup blobsMix "mix" false bdbMix 0).2) "a"
      = some (.str "1", some 50) ∧
    Backup.lookup
      ((Backup.restore_backup blobsMix "mix" false bdbMix 0).2) "b"
      = some (.str "2", none) ∧
    Backup.lookup
      ((Backup.restore_backup blobsMix "mix" false bdbMix 0).2) "h1"
      = some (.str "old", none) := by
  refine ⟨?_, by decide, by decide, by decide, by decide⟩
  simp [Backup.restore_backup, hmiss]

/-- Witness for the amended C8: a missing blob at a concrete store. -/
theorem C8_restore_failure_semantics_witness :
    Backup.restore_backup blobsBad "absent" true bdb1 0 = (.ok false, bdb1) :=
  (C8_restore_failure_semantics blobsBad "absent" true bdb1 0 (by decide)).1

/-! ### C6 — stampede protection -/

/-- **C6 counterexample**: when the source reports not-found, two concurrent
same-key misses each execute the expensive source fetch: under the schedule
below (B's first L1 check happens while A is still running) both handlers
finish with `none` and the fetch counter reaches 2, so "the recompute
executes at most once" is false (no negative caching). -/
theorem C6_not_found_fetches_twice :
    (GC.run (V := Nat) none
      [true, false, true, true, true, true, true,
       false, false, false, false, false] (GC.init Nat)).sh.fetches = 2 ∧
    (GC.run (V := Nat) none
      [true, false, true, true, true, true, true,
       false, false, false, false, false] (GC.init Nat)).a = .done none ∧
    (GC.run (V := Nat) none
      [true, false, true, true, true, true, true,
       false, false, false, false, false] (GC.init Nat)).b = .done none := by
  decide

/-- A mid-population handler is inside the critical section. -/
lemma GC.midpop_inCS {V : Type} (p : GC.PC V) (h : GC.midpop p = true) :
    GC.inCS p = true := by
  cases p <;> first | rfl | exact Bool.noConfusion h

/-- Stepping the first handler preserves the invariant (exploded form). -/
lemma GC.inv_step_a_core {V : Type} {v : V} (l1 l2 : Option V) (lk : Bool)
    (n : Nat) (a b : GC.PC V)
    (hlock : lk = (GC.inCS a || GC.inCS b))
    (hmut : ¬ (GC.inCS a = true ∧ GC.inCS b = true))
    (hl1 : ∀ w, l1 = some w → w = v)
    (hl2 : ∀ w, l2 = some w → w = v)
    (hoka : GC.PCok v a)
    (hokb : GC.PCok v b)
    (hfila : ∀ w, a ≠ .l1fill w)
    (hfilb : ∀ w, b ≠ .l1fill w)
    (hfet : n ≤ 1)
    (hzero : n = 0 → l1 = none ∧ l2 = none)
    (hmid : n = 1 → GC.midpop a = true ∨ GC.midpop b = true ∨
      (l1 = some v ∧ l2 = some v))
    (hcs0a : a = .l2check ∨ a = .fetch → n = 0)
    (hcs0b : b = .l2check ∨ b = .fetch → n = 0)
    (hmp1a : GC.midpop a = true → n = 1)
    (hmp1b : GC.midpop b = true → n = 1)
    (hsetl2a : ∀ w, a = .setl1 w → l2 = some v)
    (hsetl2b : ∀ w, b = .setl1 w → l2 = some v) :
    GC.Inv v (GC.stepSys (some v) ⟨⟨l1, l2, lk, n⟩, a, b⟩ true) := by
  cases a with
  | start =>
    cases l1 with
    | none =>
      exact ⟨hlock, hmut, hl1, hl2, trivial, hokb,
        (fun w hx => nomatch hx), hfilb, hfet, hzero, hmid,
        (fun hx => hx.elim (fun h2 => nomatch h2) (fun h2 => nomatch h2)),
        hcs0b, (fun hx => nomatch hx), hmp1b,
        (fun w hx => nomatch hx), hsetl2b⟩
    | some w =>
      have hw := hl1 w rfl
      subst w
      exact ⟨hlock, hmut, hl1, hl2, rfl, hokb,
        (fun w2 hx => nomatch hx), hfilb, hfet, hzero, hmid,
        (fun hx => hx.elim (fun h2 => nomatch h2) (fun h2 => nomatch h2)),
        hcs0b, (fun hx => nomatch hx), hmp1b,
        (fun w2 hx => nomatch hx), hsetl2b⟩
  | acquire =>
    cases lk with
    | true =>
      exact ⟨hlock, hmut, hl1, hl2, trivial, hokb,
        (fun w hx => nomatch hx), hfilb, hfet, hzero, hmid,
        (fun hx => hx.elim (fun h2 => nomatch h2) (fun h2 => nomatch h2)),
        hcs0b, (fun hx => nomatch hx), hmp1b,
        (fun w hx => nomatch hx), hsetl2b⟩
    | false =>
      have hbf : GC.inCS b = false := by
        simp only [GC.inCS, Bool.false_or] at hlock
        exact hlock.symm
      show GC.Inv v ⟨⟨l1, l2, true, n⟩, GC.PC.recheck, b⟩
      refine ⟨rfl, (fun hx => ?_), hl1, hl2, trivial, hokb,
        (fun w hx => nomatch hx), hfilb, hfet, hzero, hmid,
        (fun hx => hx.elim (fun h2 => nomatch h2) (fun h2 => nomatch h2)),
        hcs0b, (fun hx => nomatch hx), hmp1b,
        (fun w hx => nomatch hx), hsetl2b⟩
      rw [hbf] at hx
      exact Bool.noConfusion hx.2
  | recheck =>
    cases hl1c : l1 with
    | none =>
      subst hl1c
      have hn0 : n = 0 := by
        rcases Nat.lt_or_ge n 1 with h1 | h1
        · omega
        · have hn1 : n = 1 := Nat.le_antisymm hfet h1
          rcases hmid hn1 with hx | hx | hx
          · exact Bool.noConfusion hx
          · exact absurd ⟨rfl, GC.midpop_inCS b hx⟩ hmut
          · exact nomatch hx.1
      exact ⟨hlock, hmut, hl1, hl2, trivial, hokb,
        (fun w hx => nomatch hx), hfilb, hfet, hzero, hmid,
        (fun _ => hn0), hcs0b, (fun hx => nomatch hx), hmp1b,
        (fun w hx => nomatch hx), hsetl2b⟩
    | some w =>
      subst hl1c
      have hw := hl1 w rfl
      subst w
      exact ⟨hlock, hmut, hl1, hl2, rfl, hokb,
        (fun w2 hx => nomatch hx), hfilb, hfet, hzero, hmid,
        (fun hx => hx.elim (fun h2 => nomatch h2) (fun h2 => nomatch h2)),
        hcs0b, (fun hx => nomatch hx), hmp1b,
        (fun w2 hx => nomatch hx), hsetl2b⟩
  | l2check =>
    have hn0 : n = 0 := hcs0a (Or.inl rfl)
    obtain ⟨hz1, hz2⟩ := hzero hn0
    subst hz1
    subst hz2
    exact ⟨hlock, hmut, hl1, hl2, trivial, hokb,
      (fun w hx => nomatch hx), hfilb, hfet, hzero, hmid,
      (fun _ => hn0), hcs0b, (fun hx => nomatch hx), hmp1b,
      (fun w hx => nomatch hx), hsetl2b⟩
  | l1fill w => exact absurd rfl (hfila w)
  | fetch =>
    have hn0 : n = 0 := hcs0a (Or.inr rfl)
    obtain ⟨hz1, hz2⟩ := hzero hn0
    subst hz1
    subst hz2
    subst hn0
    have hbcs : GC.inCS b = false := by
      cases hxb : GC.inCS b with
      | false => rfl
      | true => exact absurd ⟨rfl, hxb⟩ hmut
    show GC.Inv v ⟨⟨none, none, lk, 1⟩, GC.PC.setl2 v, b⟩
    refine ⟨hlock, hmut, (fun w hx => nomatch hx), (fun w hx => nomatch hx),
      rfl, hokb, (fun w hx => nomatch hx), hfilb, Nat.le_refl 1,
      (fun hx => ?_), (fun _ => Or.inl rfl),
      (fun hx => hx.elim (fun h2 => nomatch h2) (fun h2 => nomatch h2)),
      (fun hx => ?_), (fun _ => rfl), (fun _ => rfl),
      (fun w hx => nomatch hx), (fun w hb => ?_)⟩
    · dsimp only at hx
      exact absurd hx (by decide)
    · dsimp only at hx ⊢
      rcases hx with h2 | h2 <;>
        · rw [h2] at hbcs
          exact Bool.noConfusion hbcs
    · dsimp only at hb ⊢
      rw [hb] at hbcs
      exact Bool.noConfusion hbcs
  | setl2 w =>
    have hw : w = v := hoka
    subst w
    have hn1 : n = 1 := hmp1a rfl
    subst n
    have hbcs : GC.inCS b = false := by
      cases hxb : GC.inCS b with
      | false => rfl
      | true => exact absurd ⟨rfl, hxb⟩ hmut
    show GC.Inv v ⟨⟨l1, some v, lk, 1⟩, GC.PC.setl1 v, b⟩
    refine ⟨hlock, hmut, hl1, (fun w2 hx => ?_),
      rfl, hokb, (fun w2 hx => nomatch hx), hfilb, Nat.le_refl 1,
      (fun hx => ?_), (fun _ => Or.inl rfl),
      (fun hx => hx.elim (fun h2 => nomatch h2) (fun h2 => nomatch h2)),
      (fun hx => ?_), (fun _ => rfl), (fun _ => rfl),
      (fun w2 hx => rfl), (fun w2 hb => rfl)⟩
    · dsimp only at hx
      exact (Option.some.inj hx).symm
    · dsimp only at hx
      exact absurd hx (by decide)
    · dsimp only at hx ⊢
      rcases hx with h2 | h2 <;>
        · rw [h2] at hbcs
          exact Bool.noConfusion hbcs
  | setl1 w =>
    have hw : w = v := hoka
    subst w
    have hn1 : n = 1 := hmp1a rfl
    subst n
    have hl2v := hsetl2a v rfl
    subst l2
    have hbcs : GC.inCS b = false := by
      cases hxb : GC.inCS b with
      | false => rfl
      | true => exact absurd ⟨rfl, hxb⟩ hmut
    show GC.Inv v ⟨⟨some v, some v, lk, 1⟩, GC.PC.ret (some v), b⟩
    refine ⟨hlock, hmut, (fun w2 hx => ?_), (fun w2 hx => ?_),
      rfl, hokb, (fun w2 hx => nomatch hx), hfilb, Nat.le_refl 1,
      (fun hx => ?_),
      (fun _ => Or.inr (Or.inr ⟨rfl, rfl⟩)),
      (fun hx => hx.elim (fun h2 => nomatch h2) (fun h2 => nomatch h2)),
      (fun hx => ?_), (fun _ => rfl), (fun _ => rfl),
      (fun w2 hx => nomatch hx), (fun w2 hb => rfl)⟩
    · dsimp only at hx
      exact (Option.some.inj hx).symm
    · dsimp only at hx
      exact (Option.some.inj hx).symm
    · dsimp only at hx
      exact absurd hx (by decide)
    · dsimp only at hx ⊢
      rcases hx with h2 | h2 <;>
        · rw [h2] at hbcs
          exact Bool.noConfusion hbcs
  | ret r =>
    have hr : r = some v := hoka
    subst r
    have hbcs : GC.inCS b = false := by
      cases hxb : GC.inCS b with
      | false => rfl
      | true => exact absurd ⟨rfl, hxb⟩ hmut
    show GC.Inv v ⟨⟨l1, l2, false, n⟩, GC.PC.done (some v), b⟩
    refine ⟨hbcs.symm, (fun hx => nomatch hx.1), hl1, hl2,
      rfl, hokb, (fun w2 hx => nomatch hx), hfilb, hfet, hzero,
      (fun hn => Or.inr ((hmid hn).resolve_left (fun h2 => nomatch h2))),
      (fun hx => hx.elim (fun h2 => nomatch h2) (fun h2 => nomatch h2)),
      (fun hx => ?_), (fun hx => nomatch hx), hmp1b,
      (fun w2 hx => nomatch hx), hsetl2b⟩
    dsimp only at hx ⊢
    rcases hx with h2 | h2 <;>
      · rw [h2] at hbcs
        exact Bool.noConfusion hbcs
  | done r =>
    exact ⟨hlock, hmut, hl1, hl2, hoka, hokb, hfila, hfilb, hfet, hzero,
      hmid, hcs0a, hcs0b, hmp1a, hmp1b, hsetl2a, hsetl2b⟩

/-- Stepping the first handler preserves the invariant. -/
lemma GC.inv_step_a {V : Type} {v : V} {s : GC.Sys V} (h : GC.Inv v s) :
    GC.Inv v (GC.stepSys (some v) s true) := by
  obtain ⟨⟨l1, l2, lk, n⟩, a, b⟩ := s
  exact GC.inv_step_a_core l1 l2 lk n a b h.lock_iff h.mutex h.l1v h.l2v
    h.oka h.okb h.fila h.filb h.fet h.zero h.mid h.cs0a h.cs0b h.mp1a
    h.mp1b h.setl2a h.setl2b

/-- The two-handler invariant is symmetric in the handlers. -/
lemma GC.Inv.swap {V : Type} {v : V} {s : GC.Sys V} (h : GC.Inv v s) :
    GC.Inv v s.swap :=
  ⟨h.lock_iff.trans (Bool.or_comm _ _),
   (fun hx => h.mutex ⟨hx.2, hx.1⟩),
   h.l1v, h.l2v, h.okb, h.oka, h.filb, h.fila, h.fet, h.zero,
   (fun hn => (h.mid hn).elim (fun x => Or.inr (Or.inl x))
     (fun x => x.elim Or.inl (fun y => Or.inr (Or.inr y)))),
   h.cs0b, h.cs0a, h.mp1b, h.mp1a, h.setl2b, h.setl2a⟩

/-- Stepping the second handler is stepping the first handler of the swapped
system, swapped back. -/
lemma GC.stepSys_false_swap {V : Type} (db : Option V) (s : GC.Sys V) :
    GC.stepSys db s false = GC.Sys.swap (GC.stepSys db s.swap true) := by
  obtain ⟨sh, a, b⟩ := s
  rcases hs : GC.step db (sh, b) with ⟨σ, p⟩
  simp [GC.stepSys, GC.Sys.swap, hs]

/-- One scheduler step preserves the invariant whichever handler runs. -/
lemma GC.inv_step {V : Type} {v : V} {s : GC.Sys V} (h : GC.Inv v s)
    (c : Bool) : GC.Inv v (GC.stepSys (some v) s c) := by
  cases c with
  | true => exact GC.inv_step_a h
  | false =>
    rw [GC.stepSys_false_swap]
    exact (GC.inv_step_a h.swap).swap

/-- Every finite schedule preserves the invariant. -/
lemma GC.inv_run {V : Type} {v : V} (sched : List Bool) {s : GC.Sys V}
    (h : GC.Inv v s) : GC.Inv v (GC.run (some v) sched s) := by
  induction sched generalizing s with
  | nil => exact h
  | cons c cs ih => exact ih (GC.inv_step h c)

/-- The cold two-handler system satisfies the invariant. -/
lemma GC.inv_init {V : Type} (v : V) : GC.Inv v (GC.init V) :=
  ⟨rfl, (fun hx => Bool.noConfusion hx.1),
   (fun w hx => nomatch hx), (fun w hx => nomatch hx),
   trivial, trivial, (fun w hx => nomatch hx), (fun w hx => nomatch hx),
   Nat.zero_le 1, (fun _ => ⟨rfl, rfl⟩), (fun hx => nomatch hx),
   (fun hx => hx.elim (fun h2 => nomatch h2) (fun h2 => nomatch h2)),
   (fun hx => hx.elim (fun h2 => nomatch h2) (fun h2 => nomatch h2)),
   (fun hx => nomatch hx), (fun hx => nomatch hx),
   (fun w hx => nomatch hx), (fun w hx => nomatch hx)⟩

/-- C6 (amended): for two concurrent handlers of the same missed key in one
process, when the source-of-record holds a value the expensive fetch executes
at most once under every interleaving of the double-checked locking protocol,
and every handler that completes returns that same value; moreover
`get_lock` hands back a process-wide per-key singleton: calling it again on
the state it returned yields the same lock identity and the same state.  (When
the source-of-record has no value the at-most-once part of the original claim
fails: each handler performs its own fetch, see the counterexample.) -/
theorem C6_stampede_protection (V : Type) (v : V) (sched : List Bool)
    (m : MemCache) (k : String) :
    (GC.run (some v) sched (GC.init V)).sh.fetches ≤ 1 ∧
    (∀ r, (GC.run (some v) sched (GC.init V)).a = GC.PC.done r → r = some v) ∧
    (∀ r, (GC.run (some v) sched (GC.init V)).b = GC.PC.done r → r = some v) ∧
    ((m.get_lock k).2).get_lock k = m.get_lock k := by
  have hinv := GC.inv_run sched (GC.inv_init v)
  refine ⟨hinv.fet, ?_, ?_, ?_⟩
  · intro r hr
    have h2 := hinv.oka
    rw [hr] at h2
    exact h2
  · intro r hr
    have h2 := hinv.okb
    rw [hr] at h2
    exact h2
  · cases hl : m.locks.lookup k with
    | some i => simp [MemCache.get_lock, hl]
    | none => simp [MemCache.get_lock, hl, List.lookup]

/-- Concrete instantiation of the C6 theorem: under the schedule that lets the
first handler fetch and re-seed while the second waits on the lock, both
handlers complete with the source value 7, exactly one fetch happened, and a
repeated `get_lock` on the lock map returns the same lock. -/
theorem C6_stampede_protection_witness :
    (GC.run (V := Nat) (some 7)
      [true, false, true, true, true, true, true, true, true,
       false, false, false] (GC.init Nat)).a = GC.PC.done (some 7) ∧
    (GC.run (V := Nat) (some 7)
      [true, false, true, true, true, true, true, true, true,
       false, false, false] (GC.init Nat)).b = GC.PC.done (some 7) ∧
    (GC.run (V := Nat) (some 7)
      [true, false, true, true, true, true, true, true, true,
       false, false, false] (GC.init Nat)).sh.fetches ≤ 1 ∧
    ((emptyMem.get_lock "course:c1").2).get_lock "course:c1" =
      emptyMem.get_lock "course:c1" :=
  ⟨by decide, by decide,
   (C6_stampede_protection Nat 7
     [true, false, true, true, true, true, true, true, true,
      false, false, false] emptyMem "course:c1").1,
   (C6_stampede_protection Nat 7
     [true, false, true, true, true, true, true, true, true,
      false, false, false] emptyMem "course:c1").2.2.2⟩

end ELearning
